import Mathlib

/-!
Verification of the conversation-orchestration engine of the rosatel-chatbot
repository, shallowly embedded in Lean 4.

Conventions of the embedding:
* Python strings are modelled as Lean `String` values; all scanning,
  substring, split and replace operations are implemented over `List Char`
  with the exact semantics of the corresponding Python operations
  (left-to-right, non-overlapping, first match).
* Python `float` values (prices, budgets) are modelled as `ℚ`.  All price
  arithmetic in the source is plain comparison and multiplication, which is
  exact on the values used; rendering a price back to text is modelled by
  explicit formatting functions.
* Python `int` quantities are modelled as `ℤ`.
* Dictionaries with a fixed key set (the preference context, the product
  records coming from the catalogue backends, the display dictionaries) are
  modelled as structures whose fields carry the corresponding keys.
* The external collaborators (the MCP toolbox catalogue, the BigQuery
  catalogue adapter, the random generator used for checkout codes) are
  passed in as explicit function-valued parameters; the engine itself is
  deterministic given those.
* Fallible code paths return `Except String`; the directive parser can fail
  in two places: the unguarded float() call on a product price that passes
  the dot-stripped isdigit guard without being a float literal, and the
  attribute error produced by `conversacion.carrito.to_dict()` (no such
  method exists on `Carrito`).
-/

set_option maxHeartbeats 1000000
set_option maxRecDepth 10000

/-! ## Python string primitives over lists of characters -/

/-- Characters removed by Python str.strip with no arguments. -/
def pyIsSpace (c : Char) : Bool :=
  c = ' ' || c = '\t' || c = '\n' || c = '\x0d' || c = '\x0b' || c = '\x0c'

/-- ASCII lower-casing, the fragment of Python str.lower exercised by the
engine (all keyword tables and directive tags are ASCII). -/
def pyLowerChar (c : Char) : Char :=
  if 'A' ≤ c ∧ c ≤ 'Z' then Char.ofNat (c.toNat + 32) else c

def pyLower (s : String) : String :=
  ⟨s.toList.map pyLowerChar⟩

/-- Python str.strip (both ends). -/
def pyStrip (s : String) : String :=
  ⟨((s.toList.dropWhile pyIsSpace).reverse.dropWhile pyIsSpace).reverse⟩

/-- Substring test on character lists: Python `needle in hay`. -/
def subList (needle : List Char) : List Char → Bool
  | [] => needle.isEmpty
  | c :: rest => needle.isPrefixOf (c :: rest) || subList needle rest

/-- Python `needle in hay` on strings. -/
def pyIn (needle hay : String) : Bool :=
  subList needle.toList hay.toList

/-- Python str.startswith. -/
def pyStartsWith (s pre : String) : Bool :=
  pre.toList.isPrefixOf s.toList

/-- One step of Python str.replace: fuel-driven left-to-right replacement of
every non-overlapping occurrence.  The fuel is the length of the subject
string, which suffices because the engine only replaces non-empty patterns. -/
def replaceAux (old new : List Char) : ℕ → List Char → List Char
  | 0, s => s
  | _ + 1, [] => []
  | fuel + 1, c :: rest =>
    if old.isPrefixOf (c :: rest) then
      new ++ replaceAux old new fuel ((c :: rest).drop old.length)
    else
      c :: replaceAux old new fuel rest

/-- Python str.replace (all occurrences).  The engine never replaces an
empty pattern, which we map to the identity. -/
def pyReplace (s old new : String) : String :=
  if old.toList.isEmpty then s
  else ⟨replaceAux old.toList new.toList s.toList.length s.toList⟩

/-- Python str.split on a single-character separator (used for the
pipe-delimited directive fields); empty parts are kept, as in Python. -/
def splitOnChar (sep : Char) : List Char → List (List Char)
  | [] => [[]]
  | c :: rest =>
    match splitOnChar sep rest with
    | [] => if c = sep then [[], []] else [[c]]
    | h :: t => if c = sep then [] :: h :: t else (c :: h) :: t

def pySplitPipe (s : String) : List String :=
  (splitOnChar '|' s.toList).map (fun cs => ⟨cs⟩)

/-- Reads characters up to the first right bracket, returning the content
before it and the remainder after it; none when no bracket occurs. -/
def untilRBracket : List Char → Option (List Char × List Char)
  | [] => none
  | c :: rest =>
    if c = ']' then some ([], rest)
    else
      match untilRBracket rest with
      | some (a, b) => some (c :: a, b)
      | none => none

/-- Maximal run of decimal digits at the front. -/
def takeDigits (cs : List Char) : List Char × List Char :=
  (cs.takeWhile Char.isDigit, cs.dropWhile Char.isDigit)

/-- Numeric value of a digit string. -/
def natOfDigits (cs : List Char) : ℕ :=
  cs.foldl (fun acc c => 10 * acc + (c.toNat - '0'.toNat)) 0

/-! ## Directive tag scanning

The directive patterns all have the shape of a left bracket, a tag name, a
colon, a non-empty capture group excluding right brackets, and a right
bracket.  The scanner below implements the semantics of the Python re
module on exactly those patterns: leftmost match, capture bounded by the
first right bracket, non-overlapping continuation after the whole match. -/

/-- Match attempt for one tag pattern at the current position; on success
returns the capture and the remainder after the closing bracket. -/
def matchTagAt (tagOpen : List Char) (cs : List Char) : Option (List Char × List Char) :=
  if tagOpen.isPrefixOf cs then
    match untilRBracket (cs.drop tagOpen.length) with
    | some (content, rest) => if content.isEmpty then none else some (content, rest)
    | none => none
  else none

/-- Fuel-driven scan collecting every non-overlapping match, left to right
(Python re.findall). -/
def findAllTagsAux (tagOpen : List Char) : ℕ → List Char → List (List Char)
  | 0, _ => []
  | _ + 1, [] => []
  | fuel + 1, c :: rest =>
    match matchTagAt tagOpen (c :: rest) with
    | some (content, r) => content :: findAllTagsAux tagOpen fuel r
    | none => findAllTagsAux tagOpen fuel rest

/-- Python re.findall of a bracketed tag pattern, returning the captures. -/
def findAllTags (tag : String) (s : String) : List String :=
  (findAllTagsAux ("[" ++ tag ++ ":").toList s.toList.length s.toList).map (fun cs => ⟨cs⟩)

/-- First match of a bracketed tag pattern (Python re.search), returning the
capture group. -/
def findFirstTagAux (tagOpen : List Char) : List Char → Option (List Char)
  | [] => none
  | c :: rest =>
    match matchTagAt tagOpen (c :: rest) with
    | some (content, _) => some content
    | none => findFirstTagAux tagOpen rest

def findFirstTag (tag : String) (s : String) : Option String :=
  (findFirstTagAux ("[" ++ tag ++ ":").toList s.toList).map (fun cs => ⟨cs⟩)

/-- Group 0 of a tag match, reconstructed from the capture. -/
def tagGroup0 (tag content : String) : String :=
  "[" ++ tag ++ ":" ++ content ++ "]"

/-! ## Numeric parsing and formatting -/

/-- Round-half-even to an integer, the rounding used by the Python format
specifier for zero decimal places. -/
def pyRound (q : ℚ) : ℤ :=
  let f := ⌊q⌋
  let r := q - f
  if r < 1 / 2 then f
  else if 1 / 2 < r then f + 1
  else if f % 2 = 0 then f else f + 1

/-- The format specifier .0f. -/
def fmtF0 (q : ℚ) : String :=
  toString (pyRound q)

/-- The format specifier .2f. -/
def fmtF2 (q : ℚ) : String :=
  let n := pyRound (q * 100)
  let sign := if n < 0 then "-" else ""
  let m := n.natAbs
  sign ++ toString (m / 100) ++ "." ++ (if m % 100 < 10 then "0" else "") ++ toString (m % 100)

/-- Interpolation of a raw numeric catalogue value into an f-string.  The
engine stores those values as rationals; integral values render the way
Python renders the corresponding float, non-integral ones by their decimal
value (the exact float repr is immaterial to every claim below). -/
def pyStrFloat (q : ℚ) : String :=
  if q.den = 1 then toString q.num ++ ".0" else toString q

/-- Python float() on the digit-and-dot strings fed to it by the directive
parser; none models a ValueError. -/
def pyFloatOpt (s : String) : Option ℚ :=
  match splitOnChar '.' s.toList with
  | [intPart] =>
    if !intPart.isEmpty && intPart.all Char.isDigit then some (natOfDigits intPart) else none
  | [intPart, fracPart] =>
    if !(intPart ++ fracPart).isEmpty && intPart.all Char.isDigit && fracPart.all Char.isDigit then
      some ((natOfDigits intPart : ℚ) + (natOfDigits fracPart : ℚ) / (10 ^ fracPart.length))
    else none
  | _ => none

/-- The test precio.replace with the dot removed followed by isdigit, used
by the product-display branch before calling float(). -/
def esNumericoSinPunto (s : String) : Bool :=
  let digits := s.toList.filter (fun c => c ≠ '.')
  !digits.isEmpty && digits.all Char.isDigit

/-! ## Data model (src/database/models.py)

Wall-clock timestamps (created_at, updated_at, message timestamps) and the
unused message metadata are not modelled; no claim mentions them. -/

/-- Producto (pydantic model with BigQuery aliases). -/
structure Producto where
  id : String
  categoria : String
  tipo : String
  producto : String
  foto : Option String
  color : Option String
  precio : ℚ
  stock : ℤ
  descuento : ℚ
  precioFinal : ℚ
  descripcion : Option String
deriving Repr, DecidableEq

/-- Raw product record as returned by the MCP toolbox / BigQuery rows, a
dictionary keyed by the alias names (ID, Producto, Precio_final, ...).  The
engine reads prices through float conversion of the raw value; the numeric
value is carried here directly as a rational. -/
structure ProductoRaw where
  rawId : String
  rawCategoria : String
  rawTipo : String
  rawProducto : String
  rawFoto : String
  rawColor : String
  rawPrecio : ℚ
  rawStock : ℤ
  rawDescuento : ℚ
  rawPrecioFinal : ℚ
deriving Repr, DecidableEq

/-- CarritoItem; the pydantic init recomputes subtotal from
cantidad * precio_unitario. -/
structure CarritoItem where
  productoId : String
  productoNombre : String
  cantidad : ℤ
  precioUnitario : ℚ
  subtotal : ℚ
deriving Repr, DecidableEq

/-- The CarritoItem constructor: subtotal is computed, never trusted. -/
def mkCarritoItem (productoId productoNombre : String) (cantidad : ℤ)
    (precioUnitario : ℚ) : CarritoItem :=
  { productoId := productoId, productoNombre := productoNombre,
    cantidad := cantidad, precioUnitario := precioUnitario,
    subtotal := cantidad * precioUnitario }

structure Carrito where
  sessionId : String
  items : List CarritoItem
deriving Repr, DecidableEq

def Carrito.total (c : Carrito) : ℚ :=
  (c.items.map (fun it => it.subtotal)).sum

def Carrito.totalItems (c : Carrito) : ℤ :=
  (c.items.map (fun it => it.cantidad)).sum

/-- The body of Carrito.agregar_item on the item list: the first item with
the given product id is incremented in place (subtotal recomputed) and the
scan returns early; when no item matches, a fresh item is appended. -/
def agregarEnLista (items : List CarritoItem) (producto : Producto)
    (cantidad : ℤ) : List CarritoItem :=
  match items with
  | [] => [mkCarritoItem producto.id producto.producto cantidad producto.precioFinal]
  | item :: rest =>
    if item.productoId = producto.id then
      { item with cantidad := item.cantidad + cantidad,
                  subtotal := (item.cantidad + cantidad) * item.precioUnitario } :: rest
    else item :: agregarEnLista rest producto cantidad

/-- Carrito.agregar_item. -/
def Carrito.agregarItem (c : Carrito) (producto : Producto) (cantidad : ℤ) : Carrito :=
  { c with items := agregarEnLista c.items producto cantidad }

/-- Helper for Carrito.to_chat_message: the enumerated item lines. -/
def carritoLineas : ℕ → List CarritoItem → String
  | _, [] => ""
  | i, item :: rest =>
    toString i ++ ". " ++ item.productoNombre ++ "\n   " ++
      toString item.cantidad ++ " x S/" ++ fmtF2 item.precioUnitario ++
      " = S/" ++ fmtF2 item.subtotal ++ "\n" ++ carritoLineas (i + 1) rest

/-- Carrito.to_chat_message. -/
def Carrito.toChatMessage (c : Carrito) : String :=
  if c.items.isEmpty then "Tu carrito esta vacio."
  else
    "**Tu carrito:**\n\n" ++ carritoLineas 1 c.items ++
      "\n**Total: S/" ++ fmtF2 c.total ++ "**"

structure MensajeChat where
  role : String
  content : String
deriving Repr, DecidableEq

/-- Display dictionary for one product card; the optional fields model dict
keys only present in some parser branches, and es_upsell models the flag the
orchestrator sets on the reconciled upsell card. -/
structure DisplayProd where
  id : String
  nombre : String
  precio : String
  precioNum : ℚ
  imagen : String
  categoria : Option String := none
  tipo : Option String := none
  descuento : Option ℚ := none
  precioOriginal : Option String := none
  enPresupuesto : Option Bool := none
  esUpsell : Bool := false
deriving Repr, DecidableEq

/-- The free-form conversation context dictionary, with one field per key
the engine ever writes (absent key equals none or false). -/
structure Contexto where
  ocasion : Option String := none
  presupuestoMin : Option ℚ := none
  presupuestoMax : Option ℚ := none
  colorPreferido : Option String := none
  florPreferida : Option String := none
  tipoProducto : Option String := none
  buscaEconomico : Bool := false
  buscaDescuento : Bool := false
  buscaPremium : Bool := false
  upsellProducto : Option DisplayProd := none
  ultimoUpsellId : Option String := none
deriving Repr, DecidableEq

/-- Conversacion; the channel enum is carried as its string value. -/
structure Conversacion where
  sessionId : String
  canal : String
  userId : Option String := none
  mensajes : List MensajeChat := []
  carrito : Option Carrito := none
  contexto : Contexto := {}
deriving Repr, DecidableEq

/-- Conversacion.agregar_mensaje. -/
def Conversacion.agregarMensaje (c : Conversacion) (role content : String) : Conversacion :=
  { c with mensajes := c.mensajes ++ [{ role := role, content := content }] }

/-! ## AIBrain helpers (src/services/ai_brain.py) -/

/-- Characters of the id class in the Drive URL patterns. -/
def esIdChar (c : Char) : Bool :=
  c.isAlpha || c.isDigit || c = '_' || c = '-'

/-- Non-empty maximal id-character run, as captured by the greedy group. -/
def idRun (cs : List Char) : Option (List Char) :=
  let ds := cs.takeWhile esIdChar
  if ds.isEmpty then none else some ds

/-- Match of the path-shaped Drive pattern at one position: a slash, an
optional file segment, the d segment, then the captured id. -/
def matchDrivePathAt (cs : List Char) : Option (List Char) :=
  if "/file/d/".toList.isPrefixOf cs then idRun (cs.drop 8)
  else if "/d/".toList.isPrefixOf cs then idRun (cs.drop 3)
  else none

def buscarDrivePath : List Char → Option (List Char)
  | [] => none
  | c :: rest =>
    match matchDrivePathAt (c :: rest) with
    | some cap => some cap
    | none => buscarDrivePath rest

/-- Match of the query-shaped Drive pattern at one position. -/
def matchDriveQueryAt (cs : List Char) : Option (List Char) :=
  match cs with
  | [] => none
  | c :: rest =>
    if (c = '?' || c = '&') && "id=".toList.isPrefixOf rest then idRun (rest.drop 3)
    else none

def buscarDriveQuery : List Char → Option (List Char)
  | [] => none
  | c :: rest =>
    match matchDriveQueryAt (c :: rest) with
    | some cap => some cap
    | none => buscarDriveQuery rest

/-- AIBrain._convertir_drive_url. -/
def convertirDriveUrl (url : String) : String :=
  if url.isEmpty then ""
  else
    match buscarDrivePath url.toList with
    | some fid => "https://lh3.googleusercontent.com/d/" ++ (⟨fid⟩ : String) ++ "=w300"
    | none =>
      match buscarDriveQuery url.toList with
      | some fid => "https://lh3.googleusercontent.com/d/" ++ (⟨fid⟩ : String) ++ "=w300"
      | none => url

/-- The alphabet random.choices draws from: uppercase letters then digits. -/
def alfabetoCodigo : List Char :=
  "ABCDEFGHIJKLMNOPQRSTUVWXYZ0123456789".toList

/-- AIBrain._generar_codigo_carrito; the random draws are modelled by the
arbitrary index stream picks, reduced modulo the alphabet size. -/
def generarCodigoCarrito (picks : ℕ → ℕ) : String :=
  "RST" ++ (⟨(List.range 8).map (fun i => alfabetoCodigo.getD (picks i % 36) 'A')⟩ : String)

/-- The external collaborators of the engine, passed explicitly: the MCP
toolbox catalogue and the BigQuery catalogue adapter.  Each is an arbitrary
but fixed deterministic function, matching the narrow interfaces the spec
lists in its section 6. -/
structure Services where
  mcpAvailable : Bool
  mcpBuscar : String → List ProductoRaw
  mcpEconomicos : ℕ → List ProductoRaw
  mcpDescuentos : List ProductoRaw
  bqObtenerProducto : String → Option Producto
  bqBuscarProductos : Option String → Option String → Option String → Option String →
    Option ℚ → Option ℚ → ℕ → List Producto

/-! ## Stable sorting

Python sorted is a stable sort by the given key; a stable sort by a fixed
key is extensionally unique, so we realize it by stable insertion, with the
strict-less test of the key. -/

/-- Stable insertion: the new element goes after every earlier element whose
key is not strictly greater. -/
def insertSorted (lt : α → α → Bool) (x : α) : List α → List α
  | [] => [x]
  | y :: ys => if lt y x then y :: insertSorted lt x ys else x :: y :: ys

def stableSort (lt : α → α → Bool) : List α → List α
  | [] => []
  | x :: xs => insertSorted lt x (stableSort lt xs)

/-! ## Display-dictionary constructors

One constructor per shape of display dictionary built in ai_brain.py; they
differ in whether the name is stripped and in how the price is rendered. -/

/-- Card dictionaries built by _detectar_upselling_response (all three offer
branches): raw name, raw price interpolation. -/
def displayUpsellDeRaw (p : ProductoRaw) : DisplayProd :=
  { id := p.rawId, nombre := p.rawProducto,
    precio := "S/" ++ pyStrFloat p.rawPrecioFinal,
    precioNum := p.rawPrecioFinal,
    imagen := convertirDriveUrl p.rawFoto,
    categoria := some p.rawCategoria, tipo := some p.rawTipo }

/-- Card dictionaries built by _buscar_productos_fallback: stripped name,
price formatted with .0f, and the en_presupuesto key computed with the 1.2
tolerance factor. -/
def displayFallbackDeRaw (presupuesto : ℚ) (p : ProductoRaw) : DisplayProd :=
  { id := p.rawId, nombre := pyStrip p.rawProducto,
    precio := "S/" ++ fmtF0 p.rawPrecioFinal,
    precioNum := p.rawPrecioFinal,
    imagen := convertirDriveUrl p.rawFoto,
    categoria := some p.rawCategoria, tipo := some p.rawTipo,
    enPresupuesto := some (decide (p.rawPrecioFinal ≤ presupuesto * (1.2 : ℚ))) }

/-- The upsell_producto dictionary written into context by the proactive
search (raw name, raw price interpolation, es_upsell set). -/
def displayUpsellProducto (p : ProductoRaw) : DisplayProd :=
  { id := p.rawId, nombre := p.rawProducto,
    precio := "S/" ++ pyStrFloat p.rawPrecioFinal,
    precioNum := p.rawPrecioFinal,
    imagen := convertirDriveUrl p.rawFoto,
    categoria := some p.rawCategoria, tipo := some p.rawTipo,
    esUpsell := true }

/-- Conversion Producto(**raw) applied by _ejecutar_busqueda to MCP rows;
empty raw strings for the optional photo and color fields stand for the
absent value. -/
def productoDeRaw (r : ProductoRaw) : Producto :=
  { id := r.rawId, categoria := r.rawCategoria, tipo := r.rawTipo,
    producto := r.rawProducto,
    foto := if r.rawFoto = "" then none else some r.rawFoto,
    color := if r.rawColor = "" then none else some r.rawColor,
    precio := r.rawPrecio, stock := r.rawStock, descuento := r.rawDescuento,
    precioFinal := r.rawPrecioFinal, descripcion := none }

/-- Display dictionary built by the legacy-search branch of
_procesar_acciones from a resolved Producto. -/
def displayBusquedaDe (p : Producto) : DisplayProd :=
  { id := p.id, nombre := p.producto,
    precio := "S/" ++ fmtF2 p.precioFinal,
    precioNum := p.precioFinal,
    imagen := convertirDriveUrl (p.foto.getD ""),
    descuento := some p.descuento,
    precioOriginal := if p.descuento ≠ 0 then some ("S/" ++ pyStrFloat p.precio) else none }

/-! ## The upsell reconciliation step of procesar_mensaje

Lines 133-145 of ai_brain.py: when the turn displayed products and a
pending upsell candidate sits in context, the candidate is popped, flagged,
de-duplicated by id from the displayed list, and appended last. -/

def reconciliarUpsell (productos : List DisplayProd) (contexto : Contexto) :
    List DisplayProd × Contexto :=
  match contexto.upsellProducto with
  | some up =>
    if productos.isEmpty then (productos, contexto)
    else
      let upsell := { up with esUpsell := true }
      let productosFiltrados := productos.filter (fun p => p.id ≠ upsell.id)
      (productosFiltrados ++ [upsell], { contexto with upsellProducto := none })
  | none => (productos, contexto)

/-! ## Preference extraction (AIBrain.extraer_preferencias)

The budget regular expressions are compiled by hand into deterministic
matchers.  On these patterns the re module is deterministic: digit runs are
maximal (reducing a greedy digit run leaves a digit where a separator or
space is required), whitespace runs are maximal (no separator is a space),
and optional groups that consume a character can never be rescued by
backtracking (the consumed character can never start the continuation). -/

/-- Generic leftmost search: the matcher is tried at every start position,
including the final empty one, exactly as re.search does. -/
def scanFirst (f : List Char → Option α) : List Char → Option α
  | [] => f []
  | c :: rest =>
    match f (c :: rest) with
    | some r => some r
    | none => scanFirst f rest

/-- Digit run at the front with its value and the remainder. -/
def digitsAt (cs : List Char) : Option (ℕ × List Char) :=
  let ds := cs.takeWhile Char.isDigit
  if ds.isEmpty then none else some (natOfDigits ds, cs.dropWhile Char.isDigit)

/-- The optional currency fragment followed by the amount: an optional s,
slash, dot and spaces, then the captured digits. -/
def matchMoneda (cs : List Char) : Option ℕ :=
  let conGrupo : Option ℕ :=
    match cs with
    | 's' :: r1 =>
      let r2 := if r1.head? = some '/' then r1.tail else r1
      let r3 := if r2.head? = some '.' then r2.tail else r2
      (digitsAt (r3.dropWhile pyIsSpace)).map (fun p => p.1)
    | _ => none
  match conGrupo with
  | some n => some n
  | none => (digitsAt cs).map (fun p => p.1)

/-- Pattern: menos de, hasta, maximo, max or presupuesto d with optional e,
then spaces, optional currency fragment, then the amount. -/
def matchPatron1 (cs : List Char) : Option ℕ :=
  let tryLit (lit : String) : Option ℕ :=
    if lit.toList.isPrefixOf cs then
      matchMoneda ((cs.drop lit.length).dropWhile pyIsSpace)
    else none
  let tryPresupuesto : Option ℕ :=
    if "presupuesto d".toList.isPrefixOf cs then
      let r := cs.drop 13
      let r := if r.head? = some 'e' then r.tail else r
      matchMoneda (r.dropWhile pyIsSpace)
    else none
  tryLit "menos de" <|> tryLit "hasta" <|> tryLit "maximo" <|> tryLit "max" <|> tryPresupuesto

/-- Pattern: the s currency fragment with the amount (the mandatory-s form
of matchMoneda). -/
def matchPatron2 (cs : List Char) : Option ℕ :=
  match cs with
  | 's' :: r1 =>
    let r2 := if r1.head? = some '/' then r1.tail else r1
    let r3 := if r2.head? = some '.' then r2.tail else r2
    (digitsAt (r3.dropWhile pyIsSpace)).map (fun p => p.1)
  | _ => none

/-- Pattern: the amount followed by spaces and the word sol with optional
suffixes (the three alternatives all begin with sol, so the success
condition is exactly that prefix). -/
def matchPatron3 (cs : List Char) : Option ℕ :=
  match digitsAt cs with
  | some (n, rest) =>
    if "sol".toList.isPrefixOf (rest.dropWhile pyIsSpace) then some n else none
  | none => none

/-- Pattern: tengo, spaces, the amount. -/
def matchPatron4 (cs : List Char) : Option ℕ :=
  if "tengo".toList.isPrefixOf cs then
    (digitsAt ((cs.drop 5).dropWhile pyIsSpace)).map (fun p => p.1)
  else none

/-- Pattern: gastar, spaces, an optional uno or unos, spaces, the amount. -/
def matchPatron5 (cs : List Char) : Option ℕ :=
  if "gastar".toList.isPrefixOf cs then
    let r1 := (cs.drop 6).dropWhile pyIsSpace
    let conUnos :=
      if "unos".toList.isPrefixOf r1 then
        (digitsAt ((r1.drop 4).dropWhile pyIsSpace)).map (fun p => p.1)
      else none
    let conUno :=
      if "uno".toList.isPrefixOf r1 then
        (digitsAt ((r1.drop 3).dropWhile pyIsSpace)).map (fun p => p.1)
      else none
    conUnos <|> conUno <|> (digitsAt r1).map (fun p => p.1)
  else none

/-- The ordered single-amount pattern list of extraer_preferencias. -/
def presupuestoPatrones : List (List Char → Option ℕ) :=
  [matchPatron1, matchPatron2, matchPatron3, matchPatron4, matchPatron5]

/-- The pattern loop: each pattern is searched over the whole message; a
match commits and stops only when the amount is at least 30, otherwise the
next pattern is tried. -/
def presupuestoLoopAux : List (List Char → Option ℕ) → List Char → Option ℕ
  | [], _ => none
  | p :: ps, ml =>
    match scanFirst p ml with
    | some monto => if 30 ≤ monto then some monto else presupuestoLoopAux ps ml
    | none => presupuestoLoopAux ps ml

/-- The range pattern: optional entre, first amount, spaces, one of the
separators a, y, dash or hasta (in that order), spaces, second amount. -/
def matchRangoAt (cs : List Char) : Option (ℕ × ℕ) :=
  let core (r : List Char) : Option (ℕ × ℕ) :=
    match digitsAt r with
    | some (a, r1) =>
      let r2 := r1.dropWhile pyIsSpace
      let sep : Option (List Char) :=
        match r2 with
        | 'a' :: rr => some rr
        | 'y' :: rr => some rr
        | '-' :: rr => some rr
        | _ => if "hasta".toList.isPrefixOf r2 then some (r2.drop 5) else none
      match sep with
      | some r3 => (digitsAt (r3.dropWhile pyIsSpace)).map (fun p => (a, p.1))
      | none => none
    | none => none
  if "entre".toList.isPrefixOf cs then
    match core ((cs.drop 5).dropWhile pyIsSpace) with
    | some ab => some ab
    | none => core cs
  else core cs

/-- First keyword-table row any of whose keywords occurs in the message. -/
def primeraCoincidencia (tabla : List (String × List String)) (ml : String) : Option String :=
  match tabla with
  | [] => none
  | (nombre, kws) :: rest =>
    if kws.any (fun kw => pyIn kw ml) then some nombre else primeraCoincidencia rest ml

def ocasionesTabla : List (String × List String) :=
  [("Amistad", ["amiga", "amigo", "amistad", "companero", "companera", "colega",
      "jefe", "jefa", "trabajo", "oficina", "vecino", "vecina",
      "conocido", "gracias", "agradecer", "agradecimiento", "detalle"]),
   ("Amor", ["novia", "novio", "esposa", "esposo", "amor", "romantico", "romantica",
      "enamorado", "enamorada", "pareja", "san valentin", "valentin",
      "te amo", "te quiero", "mi amor", "corazon"]),
   ("Cumpleaños", ["cumpleanos", "cumple", "birthday", "cumpleaños", "anos", "años",
      "feliz cumple", "felicitacion", "felicitar"]),
   ("Graduación", ["graduacion", "graduado", "graduada", "egresado", "egresada",
      "titulo", "universidad", "colegio", "promocion", "bachiller",
      "licenciado", "ingeniero", "doctor", "magister"]),
   ("Aniversario", ["aniversario", "anniversary", "bodas", "anos juntos", "años juntos",
      "celebrar", "fecha especial"]),
   ("Condolencias", ["condolencias", "pesame", "funeral", "fallecio", "fallecimiento",
      "murio", "muerte", "velorio", "sepelio", "duelo", "luto",
      "descanse en paz", "qepd", "sentido pesame"]),
   ("Inauguraciones", ["inauguracion", "apertura", "nuevo local", "nueva tienda",
      "nuevo negocio", "emprendimiento", "empresa nueva", "oficina nueva"]),
   ("Mejórate Pronto", ["mejorate", "enfermo", "enferma", "hospital", "clinica", "operacion",
      "recuperacion", "salud", "animo", "fuerza", "pronta recuperacion"]),
   ("Nacimiento", ["nacimiento", "bebe", "bebé", "recien nacido", "nacio", "parto",
      "maternidad", "baby shower", "embarazada", "nena", "nene"]),
   ("Matrimonio", ["matrimonio", "boda", "casamiento", "novia", "novios", "casarse",
      "compromiso", "pedida de mano", "civil", "iglesia"]),
   ("Para Él", ["papa", "papá", "padre", "dia del padre", "abuelo", "hermano",
      "tio", "suegro", "cunado", "para el", "hombre", "varon",
      "masculino", "caballero"]),
   ("Para su escritorio", ["escritorio", "oficina", "decoracion", "decorar", "desk",
      "trabajo", "despacho", "preservada", "seca"]),
   ("Para Niños", ["nino", "niño", "nina", "niña", "hijo", "hija", "nietos",
      "sobrino", "sobrina", "pequeño", "pequeña", "infantil", "kids"]),
   ("Variado", ["globos", "complemento", "adicional", "extra"])]

def coloresTabla : List (String × List String) :=
  [("rojo", ["rojo", "rojas", "rojos", "red"]),
   ("rosa", ["rosa", "rosado", "rosada", "pink", "fucsia"]),
   ("blanco", ["blanco", "blanca", "blancos", "white", "crema"]),
   ("amarillo", ["amarillo", "amarilla", "amarillos", "yellow"]),
   ("naranja", ["naranja", "anaranjado", "orange"]),
   ("morado", ["morado", "morada", "purpura", "lila", "violeta"]),
   ("azul", ["azul", "celeste", "blue"]),
   ("variado", ["variado", "colores", "multicolor", "surtido", "mix"])]

def floresTabla : List (String × List String) :=
  [("rosas", ["rosa", "rosas", "rose", "roses"]),
   ("tulipanes", ["tulipan", "tulipanes", "tulips"]),
   ("girasoles", ["girasol", "girasoles", "sunflower"]),
   ("orquideas", ["orquidea", "orquideas", "orchid"]),
   ("liliums", ["lilium", "liliums", "lirio", "lirios", "lily"]),
   ("astromelias", ["astromelia", "astromelias", "alstroemeria"]),
   ("gladiolos", ["gladiolo", "gladiolos"])]

def tiposProductoTabla : List (String × List String) :=
  [("Peluche", ["peluche", "oso", "osito", "hugo", "kodi", "muñeco"]),
   ("Chocolates", ["chocolate", "chocolates", "ferrero", "iberica", "bombones", "dulces"]),
   ("Vino", ["vino", "vinos", "tinto", "blanco", "espumante", "champagne", "licor"]),
   ("Arreglo Floral", ["arreglo", "centro de mesa", "florero"]),
   ("Ramo", ["ramo", "bouquet", "ramillete"]),
   ("Caja Flores", ["caja", "box"]),
   ("Corona Fúnebre", ["corona", "lagrima", "funebre"]),
   ("Globos", ["globo", "globos"])]

/-- AIBrain.extraer_preferencias, as a pure context transformer. -/
def extraerPreferencias (mensaje : String) (contexto : Contexto) : Contexto :=
  let ml := pyLower mensaje
  let c1 :=
    match primeraCoincidencia ocasionesTabla ml with
    | some o => { contexto with ocasion := some o }
    | none => contexto
  let c2 :=
    match presupuestoLoopAux presupuestoPatrones ml.toList with
    | some monto => { c1 with presupuestoMax := some (monto : ℚ) }
    | none => c1
  let c3 :=
    match scanFirst matchRangoAt ml.toList with
    | some ab => { c2 with presupuestoMin := some (ab.1 : ℚ), presupuestoMax := some (ab.2 : ℚ) }
    | none => c2
  let c4 :=
    match primeraCoincidencia coloresTabla ml with
    | some col => { c3 with colorPreferido := some col }
    | none => c3
  let c5 :=
    match primeraCoincidencia floresTabla ml with
    | some f => { c4 with florPreferida := some f }
    | none => c4
  let c6 :=
    match primeraCoincidencia tiposProductoTabla ml with
    | some t => { c5 with tipoProducto := some t }
    | none => c5
  let c7 :=
    if ["barato", "economico", "económico", "poco presupuesto", "ajustado"].any
        (fun kw => pyIn kw ml) then
      { c6 with buscaEconomico := true }
    else c6
  let c8 :=
    if ["oferta", "descuento", "promocion", "rebaja"].any (fun kw => pyIn kw ml) then
      { c7 with buscaDescuento := true }
    else c7
  if ["premium", "lujoso", "elegante", "especial", "grande"].any (fun kw => pyIn kw ml) then
    { c8 with buscaPremium := true }
  else c8

/-! ## Fallback and proactive catalogue search -/

/-- The query construction shared verbatim by _buscar_productos_fallback and
_buscar_productos_proactivo: product type, preferred flower, occasion,
preferred color, in that priority order. -/
def construirQueryParts (contexto : Contexto) : List String :=
  (match contexto.tipoProducto with | some t => [t] | none => []) ++
  (match contexto.florPreferida with | some f => [f] | none => []) ++
  (match contexto.ocasion with | some o => [o] | none => []) ++
  (match contexto.colorPreferido with | some c => [c] | none => [])

/-- Alternative-result merge of _buscar_productos_fallback: alternatives are
appended in order when their id has not been seen. -/
def mergeSinDuplicados (base alts : List ProductoRaw) : List ProductoRaw :=
  alts.foldl
    (fun acc alt =>
      if (acc.map (fun p => p.rawId)).contains alt.rawId then acc else acc ++ [alt])
    base

/-- Strict lexicographic order on the fallback sort key: first the negated
en_presupuesto flag, then the numeric price. -/
def fallbackKeyLt (a b : DisplayProd) : Bool :=
  let ka : ℕ := if a.enPresupuesto.getD false then 0 else 1
  let kb : ℕ := if b.enPresupuesto.getD false then 0 else 1
  ka < kb || (ka = kb && a.precioNum < b.precioNum)

/-- Lines 319-344 of ai_brain.py: build the priced dictionaries with the
en_presupuesto key (price within 1.2 times the budget), sort by the pair of
the negated flag and the price, and keep the best three. -/
def fallbackFiltrarOrdenar (productosRaw : List ProductoRaw) (presupuesto : ℚ) :
    List DisplayProd :=
  let conPrecio := productosRaw.map (displayFallbackDeRaw presupuesto)
  (stableSort fallbackKeyLt conPrecio).take 3

/-- AIBrain._buscar_productos_fallback. -/
def buscarProductosFallback (svc : Services) (contexto : Contexto) : List DisplayProd :=
  let tieneOcasion := contexto.ocasion.isSome
  let tieneTipo := contexto.tipoProducto.isSome
  let tienePresupuesto := contexto.presupuestoMax.isSome
  let tienePreferencia := contexto.colorPreferido.isSome || contexto.florPreferida.isSome
  if !tienePresupuesto then []
  else if !(tieneOcasion || tieneTipo || tienePreferencia) then []
  else
    let queryParts := construirQueryParts contexto
    let query := if queryParts.isEmpty then "flores" else String.intercalate " " queryParts
    let presupuesto := contexto.presupuestoMax.getD 500
    let productosRaw := svc.mcpBuscar query
    let productosRaw :=
      if productosRaw.length < 3 then
        let alternativas :=
          (match contexto.tipoProducto with | some t => svc.mcpBuscar t | none => []) ++
          (match contexto.florPreferida with | some f => svc.mcpBuscar f | none => []) ++
          (match contexto.ocasion with | some o => svc.mcpBuscar o | none => [])
        mergeSinDuplicados productosRaw alternativas
      else productosRaw
    let productosRaw := if productosRaw.isEmpty then svc.mcpEconomicos 5 else productosRaw
    fallbackFiltrarOrdenar productosRaw presupuesto

/-- Lines 626-651 of ai_brain.py, the budget filter of the proactive search:
keep the candidates at or under the budget; when none qualifies, the three
cheapest candidates in ascending price order. -/
def filtrarPorPresupuestoProactivo (productos : List ProductoRaw) (presupuesto : ℚ) :
    List ProductoRaw :=
  let filtrados := productos.filter (fun p => p.rawPrecioFinal ≤ presupuesto)
  if filtrados.isEmpty then
    (stableSort (fun a b => a.rawPrecioFinal < b.rawPrecioFinal) productos).take 3
  else filtrados

/-- The per-product lines of _formatear_resultado_busqueda. -/
def lineasDeProducto (p : ProductoRaw) : List String :=
  let nombre := pyStrip p.rawProducto
  let linea := "[PRODUCTO:" ++ p.rawId ++ "|" ++ nombre ++ "|" ++ fmtF0 p.rawPrecioFinal ++
    "|" ++ convertirDriveUrl p.rawFoto ++ "]"
  let extras :=
    (if p.rawTipo ≠ "" then [p.rawTipo] else []) ++
    (if p.rawColor ≠ "" then ["Color: " ++ p.rawColor] else []) ++
    (if 0 < p.rawDescuento then ["Descuento: antes S/" ++ fmtF0 p.rawPrecio] else [])
  [linea] ++
    (if extras.isEmpty then [] else ["   (" ++ String.intercalate ", " extras ++ ")"]) ++
    [""]

/-- AIBrain._formatear_resultado_busqueda. -/
def formatearResultadoBusqueda (resultados : List ProductoRaw) : String :=
  if resultados.isEmpty then "No se encontraron productos."
  else
    String.intercalate "\n"
      (["CATALOGO DISPONIBLE (copia estos datos exactamente):", ""] ++
        ((resultados.take 5).map lineasDeProducto).flatten)

/-- The discounted-product scan of the cross-selling block: the first of the
two leading discounted products whose category and the occasion contain one
another (an empty occasion is contained in every category). -/
def descuentoRelevante : List ProductoRaw → String → List (String × ProductoRaw)
  | [], _ => []
  | d :: rest, ocasion =>
    let cat := pyLower d.rawCategoria
    if pyIn (pyLower ocasion) cat || pyIn cat (pyLower ocasion) then
      [("Oferta especial", d)]
    else descuentoRelevante rest ocasion

/-- The cross-selling block of _buscar_productos_proactivo: flower-family
queries propose chocolates then a plush toy, plush queries propose roses, a
birthday occasion appends balloons preferring a birthday listing, and a
matching discounted product is appended last. -/
def crossSellComplementos (svc : Services) (query ocasion tipo : String) :
    List (String × ProductoRaw) :=
  let tipoLower := pyLower tipo
  let queryLower := pyLower query
  let parte1 : List (String × ProductoRaw) :=
    if ["flor", "ramo", "arreglo", "rosas"].any (fun t => pyIn t tipoLower) ||
        ["rosa", "tulipan", "girasol", "flor"].any (fun f => pyIn f queryLower) then
      (match svc.mcpBuscar "chocolates" with
       | c :: _ => [("Chocolates", c)]
       | [] => []) ++
      (match svc.mcpBuscar "peluche" with
       | p :: _ => [("Peluche", p)]
       | [] => [])
    else if pyIn "peluche" tipoLower || pyIn "peluche" queryLower then
      match svc.mcpBuscar "rosas" with
      | f :: _ => [("Ramo de rosas", f)]
      | [] => []
    else []
  let parte2 : List (String × ProductoRaw) :=
    if pyIn "cumple" (pyLower ocasion) then
      match svc.mcpBuscar "globos" with
      | [] => []
      | g :: gs =>
        let globoCumple := (((g :: gs).find? (fun x => pyIn "cumple" (pyLower x.rawProducto))).getD g)
        [("Globos", globoCumple)]
    else []
  parte1 ++ parte2 ++ descuentoRelevante (svc.mcpDescuentos.take 2) ocasion

/-- The fixed instruction block wrapped around the formatted excerpt. -/
def excerptProactivo (resultado tail : String) : String :=
  "\nCATALOGO DISPONIBLE:\n" ++ resultado ++
  "\nINSTRUCCIONES:\n- Muestra 2-3 productos del catalogo usando [PRODUCTO:id|nombre|precio|url]\n" ++
  "- NO incluyas productos de complemento/upselling en tu respuesta (se agregan automaticamente)\n- " ++
  tail ++ "\n"

/-- The main-product retrieval of _buscar_productos_proactivo: the full
query, then the occasion-only or type-only fallback when the full query had
more than one part and found nothing, then the cheap-products last resort;
an unavailable toolbox yields nothing. -/
def productosPrincipalesProactivo (svc : Services) (query : String)
    (queryParts : List String) (ocasion tipoProducto : Option String) : List ProductoRaw :=
  if svc.mcpAvailable then
    let pp := svc.mcpBuscar query
    let pp :=
      if pp.isEmpty && 1 < queryParts.length then
        match ocasion with
        | some o => svc.mcpBuscar o
        | none =>
          match tipoProducto with
          | some t => svc.mcpBuscar t
          | none => pp
      else pp
    if pp.isEmpty then svc.mcpEconomicos 10 else pp
  else []

/-- AIBrain._buscar_productos_proactivo: returns the catalogue excerpt for
the prompt and the (possibly) updated context; the upsell candidate is
communicated through the context keys upsell_producto and ultimo_upsell_id,
exactly as in the source. -/
def buscarProductosProactivo (svc : Services) (mensaje : String) (contexto : Contexto) :
    String × Contexto :=
  let mensajeLower := pyLower mensaje
  let tieneOcasion := contexto.ocasion.isSome
  let tienePreferencia := contexto.colorPreferido.isSome || contexto.florPreferida.isSome ||
    contexto.tipoProducto.isSome
  let tienePresupuesto := contexto.presupuestoMin.isSome || contexto.presupuestoMax.isSome
  let busquedaExplicita :=
    ["muestrame", "mostrar", "ver opciones", "que tienes", "opciones",
     "quiero ver", "enseñame", "tienen"].any (fun kw => pyIn kw mensajeLower)
  let tieneTipo := contexto.tipoProducto.isSome
  let contextoSuficiente :=
    (tieneOcasion && tienePresupuesto) || (tieneTipo && tienePresupuesto) ||
    (tienePreferencia && tienePresupuesto) || busquedaExplicita
  if !contextoSuficiente then ("", contexto)
  else
    let queryParts := construirQueryParts contexto
    let query := if queryParts.isEmpty then mensaje else String.intercalate " " queryParts
    let presupuesto := contexto.presupuestoMax.getD 500
    let productosPrincipales :=
      productosPrincipalesProactivo svc query queryParts contexto.ocasion contexto.tipoProducto
    if productosPrincipales.isEmpty then ("", contexto)
    else
      let productosFiltrados := filtrarPorPresupuestoProactivo productosPrincipales presupuesto
      let resultado := formatearResultadoBusqueda (productosFiltrados.take 5)
      let ocasion := contexto.ocasion.getD ""
      let tipo := contexto.tipoProducto.getD ""
      match crossSellComplementos svc query ocasion tipo with
      | [] => (excerptProactivo resultado "No hay upselling para esta busqueda", contexto)
      | (_, prodComp) :: _ =>
        let upsellProducto := displayUpsellProducto prodComp
        let contextoNuevo :=
          { contexto with upsellProducto := some upsellProducto,
                          ultimoUpsellId := some prodComp.rawId }
        (excerptProactivo resultado
          "\n\nAl final pregunta: 'Te gustaria agregarlo?' (el producto de upselling ya se muestra como tarjeta)",
          contextoNuevo)

/-! ## Directive parser (AIBrain._procesar_acciones) -/

/-- Side-effect records appended to the acciones list.  The two checkout
constructors distinguish the explicit checkout tag (whose dictionary has a
carrito key, None when the conversation has no cart) from the
generate-checkout tag (whose dictionary has no carrito key). -/
inductive Accion where
  | mostrarProducto (producto : DisplayProd)
  | buscar (query : String) (resultados : ℕ)
  | agregarCarrito (productoId : String) (nombre : String) (precio : ℚ)
  | checkout (codigo : String) (url : String) (carrito : Option Carrito)
  | verCarrito
  | checkoutGenerado (codigo : String) (url : String)
deriving Repr, DecidableEq

/-- Python str.isdigit on the ids fed to it by the add-to-cart branch. -/
def esDigitos (s : String) : Bool :=
  !s.toList.isEmpty && s.toList.all Char.isDigit

/-- The running parser state: the processed text, the display list and the
action list. -/
abbrev EstadoAcciones := String × List DisplayProd × List Accion

/-- The body of the product-display loop: a match with at least three
pipe-delimited fields is recorded and replaced in the text; a match with
fewer fields leaves text, display list and action list untouched.  A price
that passes the dot-stripped isdigit guard without being a float literal
(two or more dots, e.g. 1.2.3) makes the unguarded float() call raise
ValueError, aborting the whole parse. -/
def procesarProductoUno (st : EstadoAcciones) (matchStr : String) :
    Except String EstadoAcciones :=
  let parts := pySplitPipe matchStr
  if 3 ≤ parts.length then
    let prodId := pyStrip (parts.getD 0 "")
    let nombre := pyStrip (parts.getD 1 "")
    let precio := pyStrip (parts.getD 2 "")
    let imagenUrl :=
      if 3 < parts.length then convertirDriveUrl (pyStrip (parts.getD 3 "")) else ""
    if esNumericoSinPunto precio && (pyFloatOpt precio).isNone then
      Except.error ("ValueError: could not convert string to float: " ++ precio)
    else
      let productoDisplay : DisplayProd :=
        { id := prodId, nombre := nombre, precio := "S/" ++ precio,
          precioNum := if esNumericoSinPunto precio then (pyFloatOpt precio).getD 0 else 0,
          imagen := imagenUrl }
      Except.ok
        (pyReplace st.1 (tagGroup0 "PRODUCTO" matchStr) ("\n**" ++ nombre ++ "** - S/" ++ precio),
         st.2.1 ++ [productoDisplay],
         st.2.2 ++ [Accion.mostrarProducto productoDisplay])
  else Except.ok st

/-- The product-display pass: every match of the PRODUCTO pattern in the raw
response, in order; the first ValueError aborts the remaining matches. -/
def procesarProductos (respuesta : String) (st : EstadoAcciones) :
    Except String EstadoAcciones :=
  (findAllTags "PRODUCTO" respuesta).foldlM procesarProductoUno st

/-- The regex extraction of _parsear_busqueda for a price range, with the
remainder after the match for the substitution pass. -/
def matchPrecioRangoAt (cs : List Char) : Option ((ℕ × ℕ) × List Char) :=
  match digitsAt cs with
  | some (a, r1) =>
    let r2 := r1.dropWhile pyIsSpace
    match r2 with
    | c :: r3 =>
      if c = '-' || c = 'a' then
        (digitsAt (r3.dropWhile pyIsSpace)).map (fun p => ((a, p.1), p.2))
      else none
    | [] => none
  | none => none

/-- The re.sub pass removing every price-range occurrence. -/
def subPrecioRangoAux : ℕ → List Char → List Char
  | 0, s => s
  | _ + 1, [] => []
  | fuel + 1, c :: rest =>
    match matchPrecioRangoAt (c :: rest) with
    | some (_, r) => subPrecioRangoAux fuel r
    | none => c :: subPrecioRangoAux fuel rest

def categoriasKeywordsTabla : List (String × String) :=
  [("flores", "Flores"), ("rosas", "Flores"), ("tulipanes", "Flores"),
   ("girasoles", "Flores"), ("orquideas", "Flores"),
   ("peluches", "Peluches"), ("osos", "Peluches"),
   ("chocolates", "Chocolates"), ("combos", "Combos")]

def coloresBusqueda : List String :=
  ["rojo", "rosa", "blanco", "amarillo", "naranja", "morado", "azul", "multicolor"]

/-- Python str.capitalize: first character upper-cased, the rest
lower-cased. -/
def pyCapitalize (s : String) : String :=
  match s.toList with
  | [] => ""
  | c :: rest =>
    (⟨(if 'a' ≤ c ∧ c ≤ 'z' then Char.ofNat (c.toNat - 32) else c) :: rest.map pyLowerChar⟩ : String)

/-- AIBrain._parsear_busqueda: price range, category keyword and color are
pulled out of the query, then the BigQuery adapter is consulted. -/
def parsearBusqueda (svc : Services) (query : String) : List Producto :=
  let rango := scanFirst matchPrecioRangoAt query.toList
  let precioMin := rango.map (fun r => (r.1.1 : ℚ))
  let precioMax := rango.map (fun r => (r.1.2 : ℚ))
  let query :=
    if rango.isSome then
      pyStrip (⟨subPrecioRangoAux query.toList.length query.toList⟩ : String)
    else query
  let queryLower := pyLower query
  let categoria :=
    (categoriasKeywordsTabla.find? (fun kv => pyIn kv.1 queryLower)).map (fun kv => kv.2)
  let color :=
    (coloresBusqueda.find? (fun c => pyIn c queryLower)).map pyCapitalize
  svc.bqBuscarProductos (some query) categoria none color precioMin precioMax 5

/-- AIBrain._ejecutar_busqueda: the MCP toolbox first (five rows converted
to Producto), then the BigQuery parse as the fallback. -/
def ejecutarBusqueda (svc : Services) (query : String) : List Producto :=
  if svc.mcpAvailable then
    let resultados := svc.mcpBuscar query
    if !resultados.isEmpty then (resultados.take 5).map productoDeRaw
    else parsearBusqueda svc query
  else parsearBusqueda svc query

/-- The legacy-search branch: only the first BUSCAR_PRODUCTO match is
processed; its replacement text enumerates the whole display list
accumulated so far, and the search action records the result count. -/
def procesarBuscar (svc : Services) (respuesta : String) (st : EstadoAcciones) :
    EstadoAcciones :=
  match findFirstTag "BUSCAR_PRODUCTO" respuesta with
  | none => st
  | some contenido =>
    let query := pyStrip contenido
    let productosEncontrados := ejecutarBusqueda svc query
    if !productosEncontrados.isEmpty then
      let nuevos := (productosEncontrados.take 3).map displayBusquedaDe
      let productosDisplay := st.2.1 ++ nuevos
      let productosTexto :=
        String.intercalate "\n"
          (productosDisplay.map (fun p => "- **" ++ p.nombre ++ "** - " ++ p.precio))
      (pyReplace st.1 (tagGroup0 "BUSCAR_PRODUCTO" contenido) ("\n" ++ productosTexto),
       productosDisplay,
       st.2.2 ++ [Accion.buscar query productosEncontrados.length])
    else
      (pyReplace st.1 (tagGroup0 "BUSCAR_PRODUCTO" contenido)
        "\nNo encontre productos con esas caracteristicas. Quieres probar con algo diferente?",
       st.2.1,
       st.2.2 ++ [Accion.buscar query 0])

/-- The add-to-cart branch: only the first AGREGAR_CARRITO match is
processed; the tag is always removed from the text; the product is resolved
by id then by name; a resolved product mutates the cart and clears the
last-upsell id (popping a key from the context dictionary, a no-op when the
dictionary is empty, is modelled by the unconditional field reset). -/
def procesarAgregar (svc : Services) (respuesta : String) (st : EstadoAcciones)
    (conversacion : Conversacion) : EstadoAcciones × Conversacion :=
  match findFirstTag "AGREGAR_CARRITO" respuesta with
  | none => (st, conversacion)
  | some contenido =>
    let parts := pySplitPipe (pyStrip contenido)
    let productoId := pyStrip (parts.getD 0 "")
    let nombre := if 1 < parts.length then pyStrip (parts.getD 1 "") else "Producto"
    let precio :=
      if 2 < parts.length then (pyFloatOpt (pyStrip (parts.getD 2 ""))).getD 0 else (0 : ℚ)
    let resp := pyReplace st.1 (tagGroup0 "AGREGAR_CARRITO" contenido) ""
    let productoPorId :=
      if esDigitos productoId then svc.bqObtenerProducto productoId else none
    let producto :=
      match productoPorId with
      | some p => some p
      | none =>
        if nombre ≠ "" then
          (svc.bqBuscarProductos (some nombre) none none none none none 1).head?
        else none
    match producto with
    | none => ((resp, st.2.1, st.2.2), conversacion)
    | some p =>
      let carritoNuevo :=
        (conversacion.carrito.getD { sessionId := conversacion.sessionId, items := [] }).agregarItem p 1
      let conversacionNueva :=
        { conversacion with
            carrito := some carritoNuevo,
            contexto := { conversacion.contexto with ultimoUpsellId := none } }
      ((resp, st.2.1, st.2.2 ++ [Accion.agregarCarrito p.id p.producto precio]),
       conversacionNueva)

/-- The explicit-checkout branch: only the first CHECKOUT match is processed;
the placeholder code triggers generation; building the action dictionary
calls to_dict on the cart, a method Carrito does not define, so a present
cart raises an attribute error. -/
def procesarCheckout (picks : ℕ → ℕ) (respuesta : String) (st : EstadoAcciones)
    (carrito : Option Carrito) : Except String EstadoAcciones :=
  match findFirstTag "CHECKOUT" respuesta with
  | none => Except.ok st
  | some contenido =>
    let codigo := pyStrip contenido
    let codigo := if codigo = "codigo_random" then generarCodigoCarrito picks else codigo
    let checkoutUrl := "https://rosatel.pe/checkout/" ++ codigo
    let resp := pyReplace st.1 (tagGroup0 "CHECKOUT" contenido)
      ("\n\nLink de pago: " ++ checkoutUrl)
    match carrito with
    | some _ => Except.error "AttributeError: Carrito object has no attribute to_dict"
    | none => Except.ok (resp, st.2.1, st.2.2 ++ [Accion.checkout codigo checkoutUrl none])

/-- The view-cart branch: the literal tag, searched in the raw response and
substituted everywhere in the processed text. -/
def procesarVerCarrito (respuesta : String) (st : EstadoAcciones)
    (carrito : Option Carrito) : EstadoAcciones :=
  if pyIn "[VER_CARRITO]" respuesta then
    let carritoMsg :=
      match carrito with
      | some c => c.toChatMessage
      | none => "Tu carrito esta vacio."
    (pyReplace st.1 "[VER_CARRITO]" ("\n" ++ carritoMsg), st.2.1,
     st.2.2 ++ [Accion.verCarrito])
  else st

/-- The generate-checkout branch: only meaningful with a non-empty cart; an
absent or empty cart leaves the tag in place and omits the side effect. -/
def procesarGenerarCheckout (picks : ℕ → ℕ) (respuesta : String) (st : EstadoAcciones)
    (carrito : Option Carrito) : EstadoAcciones :=
  if pyIn "[GENERAR_CHECKOUT]" respuesta then
    match carrito with
    | some c =>
      if !c.items.isEmpty then
        let codigo := generarCodigoCarrito picks
        let checkoutUrl := "https://rosatel.pe/checkout/" ++ codigo
        let checkoutMsg :=
          "\nResumen de tu pedido:\n" ++ c.toChatMessage ++ "\n\nLink de pago: " ++
            checkoutUrl ++ "\n"
        (pyReplace st.1 "[GENERAR_CHECKOUT]" checkoutMsg, st.2.1,
         st.2.2 ++ [Accion.checkoutGenerado codigo checkoutUrl])
      else st
    | none => st
  else st

/-- AIBrain._procesar_acciones: the passes in source order, every search
running over the raw response while replacements accumulate on the
processed text, and the final strip. -/
def procesarAcciones (svc : Services) (picks1 picks2 : ℕ → ℕ) (respuesta : String)
    (conversacion : Conversacion) :
    Except String (String × List DisplayProd × List Accion × Conversacion) :=
  let st0 : EstadoAcciones := (respuesta, [], [])
  match procesarProductos respuesta st0 with
  | Except.error e => Except.error e
  | Except.ok st1 =>
    let st2 := procesarBuscar svc respuesta st1
    let pc := procesarAgregar svc respuesta st2 conversacion
    match procesarCheckout picks1 respuesta pc.1 pc.2.carrito with
    | Except.error e => Except.error e
    | Except.ok st4 =>
      let st5 := procesarVerCarrito respuesta st4 pc.2.carrito
      let st6 := procesarGenerarCheckout picks2 respuesta st5 pc.2.carrito
      Except.ok (pyStrip st6.1, st6.2.1, st6.2.2, pc.2)

/-! ## Upsell-acceptance detector (AIBrain._detectar_upselling_response) -/

def afirmaciones : List String :=
  ["si", "sí", "ok", "dale", "claro", "por supuesto", "me interesa",
   "perfecto", "bueno", "va", "muestrame", "mostrame"]

/-- The backward scan over the last ten messages for an assistant message
containing a question mark together with a complement keyword; returns its
lower-cased content, or the empty string. -/
def buscarOfertaAux : List MensajeChat → String
  | [] => ""
  | m :: rest =>
    if m.role = "assistant" then
      let cl := pyLower m.content
      if pyIn "?" cl &&
          ["globo", "chocolate", "peluche", "complementar", "agregar"].any
            (fun kw => pyIn kw cl) then cl
      else buscarOfertaAux rest
    else buscarOfertaAux rest

def ofertaEncontrada (mensajes : List MensajeChat) : String :=
  buscarOfertaAux (mensajes.reverse.take 10)

def carritoIds (carrito : Option Carrito) : List String :=
  match carrito with
  | some c => c.items.map (fun it => it.productoId)
  | none => []

def carritoNombres (carrito : Option Carrito) : List String :=
  match carrito with
  | some c => c.items.map (fun it => pyLower it.productoNombre)
  | none => []

/-- The short-circuit reply dictionary the detector returns. -/
structure RespuestaUpsell where
  texto : String
  textoLimpio : String
  burbujas : List String
  productos : List DisplayProd
  acciones : List Accion
  carrito : Option Carrito
deriving Repr, DecidableEq

/-- AIBrain._detectar_upselling_response. -/
def detectarUpsellingResponse (svc : Services) (mensaje : String)
    (conversacion : Conversacion) : Option RespuestaUpsell :=
  let mensajeLower := pyStrip (pyLower mensaje)
  if pyIn "carrito" mensajeLower || pyIn "agregar" mensajeLower then none
  else if !(afirmaciones.any (fun a => pyStartsWith mensajeLower a || mensajeLower = a)) then
    none
  else
    let oferta := ofertaEncontrada conversacion.mensajes
    let ids := carritoIds conversacion.carrito
    let nombres := carritoNombres conversacion.carrito
    if oferta = "" then none
    else
      let par : String × List DisplayProd :=
        if pyIn "globo" oferta then
          match svc.mcpBuscar "globos" with
          | [] => ("", [])
          | g :: gs =>
            ("Aqui tienes los globos disponibles:",
             ((g :: gs).take 3).filterMap
               (fun x => if ids.contains x.rawId then none else some (displayUpsellDeRaw x)))
        else if pyIn "chocolate" oferta then
          match svc.mcpBuscar "chocolates" with
          | [] => ("", [])
          | c :: cs =>
            let filtrados :=
              (c :: cs).filter (fun x =>
                !(ids.contains x.rawId) &&
                !(nombres.any (fun n => n ≠ "" && pyIn n (pyLower x.rawProducto))))
            if !filtrados.isEmpty then
              ("Excelente eleccion! Te muestro los chocolates:",
               (filtrados.take 3).map displayUpsellDeRaw)
            else
              ("Ya tienes chocolates en tu carrito. Algo mas que necesites?", [])
        else if pyIn "peluche" oferta then
          match svc.mcpBuscar "peluche" with
          | [] => ("", [])
          | p :: ps =>
            ("Aqui tienes los peluches disponibles:",
             ((p :: ps).take 3).map displayUpsellDeRaw)
        else ("", [])
      if par.2.isEmpty then none
      else
        some { texto := par.1, textoLimpio := par.1, burbujas := [par.1],
               productos := par.2, acciones := [], carrito := conversacion.carrito }

/-! ## Auxiliary predicates and concrete inputs for the verification -/

/-- Sequential application of agregar_item calls. -/
def aplicarAgregados (c : Carrito) (adds : List (Producto × ℤ)) : Carrito :=
  adds.foldl (fun acc a => acc.agregarItem a.1 a.2) c

/-- The single-entry invariant for one product id: the item list splits
around exactly one item carrying the id, with the stated quantity, unit
price and recomputed subtotal. -/
def InvCarrito (pid : String) (q : ℤ) (pu : ℚ) (items : List CarritoItem) : Prop :=
  ∃ pre it post, items = pre ++ it :: post ∧
    (∀ x ∈ pre, x.productoId ≠ pid) ∧ (∀ x ∈ post, x.productoId ≠ pid) ∧
    it.productoId = pid ∧ it.cantidad = q ∧ it.precioUnitario = pu ∧ it.subtotal = q * pu

/-- Recognizers for the three action kinds the first-occurrence claim is
about. -/
def esAccionAgregar : Accion → Bool
  | Accion.agregarCarrito _ _ _ => true
  | _ => false

def esAccionBuscar : Accion → Bool
  | Accion.buscar _ _ => true
  | _ => false

def esAccionCheckoutTag : Accion → Bool
  | Accion.checkout _ _ _ => true
  | _ => false

/-- Services with an unavailable MCP toolbox and an empty BigQuery
catalogue. -/
def svcVacio : Services :=
  { mcpAvailable := false, mcpBuscar := fun _ => [], mcpEconomicos := fun _ => [],
    mcpDescuentos := [], bqObtenerProducto := fun _ => none,
    bqBuscarProductos := fun _ _ _ _ _ _ _ => [] }

/-- A fresh conversation. -/
def convVacia : Conversacion := { sessionId := "s1", canal := "widget" }

def productoC1 : Producto :=
  { id := "P1", categoria := "Flores", tipo := "Ramo", producto := "Ramo de rosas",
    foto := none, color := none, precio := 120, stock := 5, descuento := 0,
    precioFinal := 100, descripcion := none }

def carritoC1 : Carrito := { sessionId := "w1", items := [] }

def addsC1 : List (Producto × ℤ) := [(productoC1, 1), (productoC1, 2)]

/-- A bare display card with the given id. -/
def tarjeta (i : String) : DisplayProd :=
  { id := i, nombre := "N" ++ i, precio := "S/10", precioNum := 10, imagen := "" }

def rawConPrecio (i : String) (precio : ℚ) : ProductoRaw :=
  { rawId := i, rawCategoria := "Flores", rawTipo := "Ramo", rawProducto := "Prod" ++ i,
    rawFoto := "", rawColor := "", rawPrecio := precio, rawStock := 3, rawDescuento := 0,
    rawPrecioFinal := precio }

/-- The spec example: candidate prices 50, 120 and 200. -/
def listaC5 : List ProductoRaw :=
  [rawConPrecio "A" 50, rawConPrecio "B" 120, rawConPrecio "C" 200]

def globoRaw1 : ProductoRaw := rawConPrecio "G1" 25
def globoRaw2 : ProductoRaw := rawConPrecio "G2" 30

/-- Services whose balloon search returns two candidates. -/
def svcGlobos : Services :=
  { svcVacio with mcpBuscar := fun q => if q = "globos" then [globoRaw1, globoRaw2] else [] }

/-- A conversation holding the first balloon in the cart, after an
assistant balloon offer. -/
def itemG1 : CarritoItem :=
  { productoId := "G1", productoNombre := "ProdG1", cantidad := 1,
    precioUnitario := 25, subtotal := 25 }

def convGlobos : Conversacion :=
  { sessionId := "s1", canal := "widget",
    mensajes := [{ role := "assistant", content := "Te gustaria agregar unos globos?" }],
    carrito := some { sessionId := "s1", items := [itemG1] } }

def chocoRaw1 : ProductoRaw :=
  { rawId := "C1", rawCategoria := "Chocolates", rawTipo := "Chocolates",
    rawProducto := "Chocolates Ferrero", rawFoto := "", rawColor := "", rawPrecio := 35,
    rawStock := 3, rawDescuento := 0, rawPrecioFinal := 35 }

/-- Services whose chocolate search returns one candidate. -/
def svcChoco : Services :=
  { svcVacio with mcpBuscar := fun q => if q = "chocolates" then [chocoRaw1] else [] }

/-- A conversation whose cart already holds that only chocolate, after an
assistant chocolate offer. -/
def convChoco : Conversacion :=
  { sessionId := "s1", canal := "widget",
    mensajes := [{ role := "assistant", content := "Te gustaria agregar chocolates?" }],
    carrito := some { sessionId := "s1", items := [mkCarritoItem "C1" "Chocolates Ferrero" 1 35] } }

def carritoC8 : Carrito :=
  { sessionId := "s1",
    items := [{ productoId := "1", productoNombre := "Ramo de rosas", cantidad := 1,
                precioUnitario := 100, subtotal := 100 }] }

def productoBq9 : Producto :=
  { id := "9", categoria := "Flores", tipo := "Ramo", producto := "Ramo Rojo",
    foto := none, color := none, precio := 100, stock := 2, descuento := 0,
    precioFinal := 90, descripcion := none }

/-- Services resolving product id 9 through the BigQuery adapter. -/
def svcBq9 : Services :=
  { svcVacio with bqObtenerProducto := fun i => if i = "9" then some productoBq9 else none }

def pelRaw1 : ProductoRaw :=
  { rawId := "P1", rawCategoria := "Peluches", rawTipo := "Peluche", rawProducto := "Osito Hugo",
    rawFoto := "", rawColor := "", rawPrecio := 35, rawStock := 3, rawDescuento := 0,
    rawPrecioFinal := 35 }

/-- Services whose plush search returns one candidate. -/
def svcPel : Services :=
  { svcVacio with mcpBuscar := fun q => if q = "peluche" then [pelRaw1] else [] }

/-- A conversation whose cart already holds that plush toy, after an
assistant plush offer. -/
def convPel : Conversacion :=
  { sessionId := "s1", canal := "widget",
    mensajes := [{ role := "assistant", content := "Quieres agregar un peluche?" }],
    carrito := some { sessionId := "s1", items := [mkCarritoItem "P1" "Osito Hugo" 1 35] } }

/-- The parser output on a legacy search that finds nothing. -/
def outBuscarVacio : String × List DisplayProd × List Accion × Conversacion :=
  ("hola \nNo encontre productos con esas caracteristicas. Quieres probar con algo diferente?",
   [], [Accion.buscar "rosas" 0], convVacia)

/-- The reply the detector produces in the balloon scenario. -/
def respGlobos : RespuestaUpsell :=
  { texto := "Aqui tienes los globos disponibles:",
    textoLimpio := "Aqui tienes los globos disponibles:",
    burbujas := ["Aqui tienes los globos disponibles:"],
    productos := [displayUpsellDeRaw globoRaw2],
    acciones := [],
    carrito := convGlobos.carrito }

/-! ## Theorems -/

/-! ### C1: the cart keeps one item per product id with summed quantity -/

theorem agregarEnLista_all_ne (items : List CarritoItem) (p : Producto) (q : ℤ)
    (h : ∀ it ∈ items, it.productoId ≠ p.id) :
    agregarEnLista items p q = items ++ [mkCarritoItem p.id p.producto q p.precioFinal] := by
  induction items with
  | nil => rfl
  | cons item rest ih =>
    have hne : item.productoId ≠ p.id := h item (by simp)
    have hrest : ∀ it ∈ rest, it.productoId ≠ p.id := fun it hit => h it (by simp [hit])
    simp [agregarEnLista, hne, ih hrest]

theorem agregarEnLista_append_left (pre rest : List CarritoItem) (p : Producto) (q : ℤ)
    (h : ∀ x ∈ pre, x.productoId ≠ p.id) :
    agregarEnLista (pre ++ rest) p q = pre ++ agregarEnLista rest p q := by
  induction pre with
  | nil => rfl
  | cons x xs ih =>
    have hne : x.productoId ≠ p.id := h x (by simp)
    have hxs : ∀ y ∈ xs, y.productoId ≠ p.id := fun y hy => h y (by simp [hy])
    simp [agregarEnLista, hne, ih hxs]

theorem invCarrito_base (items : List CarritoItem) (p : Producto) (c : ℤ)
    (h : ∀ x ∈ items, x.productoId ≠ p.id) :
    InvCarrito p.id c p.precioFinal (agregarEnLista items p c) := by
  rw [agregarEnLista_all_ne items p c h]
  exact ⟨items, mkCarritoItem p.id p.producto c p.precioFinal, [], rfl, h, by simp,
    rfl, rfl, rfl, rfl⟩

theorem invCarrito_step (pid : String) (q : ℤ) (pu : ℚ) (items : List CarritoItem)
    (hinv : InvCarrito pid q pu items) (p : Producto) (hp : p.id = pid) (c : ℤ) :
    InvCarrito pid (q + c) pu (agregarEnLista items p c) := by
  obtain ⟨pre, it, post, rfl, hpre, hpost, hid, hq, hpu, hsub⟩ := hinv
  rw [agregarEnLista_append_left pre (it :: post) p c
    (fun x hx => by rw [hp]; exact hpre x hx)]
  have hcond : it.productoId = p.id := by rw [hid, hp]
  have hupdate : agregarEnLista (it :: post) p c =
      { it with cantidad := it.cantidad + c,
                subtotal := (it.cantidad + c) * it.precioUnitario } :: post := by
    simp [agregarEnLista, hcond]
  rw [hupdate]
  refine ⟨pre, _, post, rfl, hpre, hpost, ?_, ?_, ?_, ?_⟩
  · simpa using hid
  · simp [hq]
  · simpa using hpu
  · simp [hq, hpu]

theorem invCarrito_fold (pid : String) (pu : ℚ) (adds : List (Producto × ℤ))
    (hall : ∀ a ∈ adds, a.1.id = pid) (q : ℤ) (items : List CarritoItem)
    (hinv : InvCarrito pid q pu items) :
    InvCarrito pid (q + (adds.map (fun a => a.2)).sum) pu
      (adds.foldl (fun its a => agregarEnLista its a.1 a.2) items) := by
  induction adds generalizing q items with
  | nil => simpa using hinv
  | cons a rest ih =>
    have h1 := invCarrito_step pid q pu items hinv a.1 (hall a (by simp)) a.2
    have h2 := ih (fun x hx => hall x (by simp [hx])) (q + a.2) _ h1
    have heq : q + a.2 + (rest.map (fun a => a.2)).sum =
        q + ((a :: rest).map (fun a => a.2)).sum := by
      simp; ring
    rw [heq] at h2
    exact h2

theorem aplicarAgregados_items (c : Carrito) (adds : List (Producto × ℤ)) :
    (aplicarAgregados c adds).items =
      adds.foldl (fun its a => agregarEnLista its a.1 a.2) c.items := by
  induction adds generalizing c with
  | nil => rfl
  | cons a rest ih =>
    show (aplicarAgregados (c.agregarItem a.1 a.2) rest).items = _
    rw [ih]
    rfl

theorem invCarrito_consecuencias (pid : String) (q : ℤ) (pu : ℚ)
    (items : List CarritoItem) (hinv : InvCarrito pid q pu items) :
    ((items.filter (fun it => it.productoId = pid)).length = 1) ∧
    (∀ it ∈ items, it.productoId = pid →
      it.cantidad = q ∧ it.subtotal = it.cantidad * it.precioUnitario) := by
  obtain ⟨pre, it, post, rfl, hpre, hpost, hid, hq, hpu, hsub⟩ := hinv
  constructor
  · have hpre0 : pre.filter (fun x => decide (x.productoId = pid)) = [] := by
      rw [List.filter_eq_nil_iff]
      intro a ha
      simpa using hpre a ha
    have hpost0 : post.filter (fun x => decide (x.productoId = pid)) = [] := by
      rw [List.filter_eq_nil_iff]
      intro a ha
      simpa using hpost a ha
    simp [List.filter_append, List.filter_cons, hid, hpre0, hpost0]
  · intro x hx hxid
    rcases List.mem_append.1 hx with h | h
    · exact absurd hxid (hpre x h)
    · rcases List.mem_cons.1 h with rfl | h
      · exact ⟨hq, by rw [hsub, hq, hpu]⟩
      · exact absurd hxid (hpost x h)

/-- C1: for every sequence of agregar_item calls with the same product id on
a cart not yet holding that id, after every prefix of the sequence the cart
holds exactly one item for that id, its quantity is the sum of the added
quantities so far, and its subtotal equals quantity times unit price. -/
theorem claim_C1_carrito_cantidad_subtotal
    (c0 : Carrito) (pid : String) (adds : List (Producto × ℤ))
    (h0 : ∀ it ∈ c0.items, it.productoId ≠ pid)
    (hall : ∀ a ∈ adds, a.1.id = pid)
    (n : ℕ) (h1 : 1 ≤ n) (h2 : n ≤ adds.length) :
    (((aplicarAgregados c0 (adds.take n)).items.filter
        (fun it => it.productoId = pid)).length = 1) ∧
    (∀ it ∈ (aplicarAgregados c0 (adds.take n)).items, it.productoId = pid →
      it.cantidad = ((adds.take n).map (fun a => a.2)).sum ∧
      it.subtotal = it.cantidad * it.precioUnitario) := by
  obtain ⟨a, t, hat⟩ : ∃ a t, adds.take n = a :: t := by
    cases adds with
    | nil => simp at h2; omega
    | cons a tl =>
      cases n with
      | zero => omega
      | succ m => exact ⟨a, tl.take m, by simp⟩
  have htake : ∀ x ∈ adds.take n, x.1.id = pid := fun x hx =>
    hall x (List.mem_of_mem_take hx)
  rw [hat] at htake ⊢
  have hbase0 := invCarrito_base c0.items a.1 a.2
    (fun x hx => by rw [htake a (by simp)]; exact h0 x hx)
  rw [htake a (by simp)] at hbase0
  have hfold := invCarrito_fold pid a.1.precioFinal t
    (fun x hx => htake x (by simp [hx])) a.2 _ hbase0
  have hitems : (aplicarAgregados c0 (a :: t)).items =
      t.foldl (fun its x => agregarEnLista its x.1 x.2) (agregarEnLista c0.items a.1 a.2) := by
    rw [aplicarAgregados_items]
    rfl
  rw [hitems]
  have hsum : ((a :: t).map (fun x => x.2)).sum = a.2 + (t.map (fun x => x.2)).sum := by simp
  rw [hsum]
  exact invCarrito_consecuencias pid _ _ _ hfold

/-- Witness for C1 at a concrete two-call sequence. -/
theorem claim_C1_witness :
    (((aplicarAgregados carritoC1 (addsC1.take 2)).items.filter
        (fun it => it.productoId = "P1")).length = 1) ∧
    (∀ it ∈ (aplicarAgregados carritoC1 (addsC1.take 2)).items, it.productoId = "P1" →
      it.cantidad = ((addsC1.take 2).map (fun a => a.2)).sum ∧
      it.subtotal = it.cantidad * it.precioUnitario) :=
  claim_C1_carrito_cantidad_subtotal carritoC1 "P1" addsC1 (by decide) (by decide) 2
    (by decide) (by decide)

/-! ### C2 and C10: upsell reconciliation in procesar_mensaje -/

/-- C2: when the turn displayed products and a pending upsell candidate is
in context, the reconciled list carries the candidate id exactly once, as
the last element, flagged as an upsell card, and the candidate is removed
from context. -/
theorem claim_C2_upsell_una_vez (productos : List DisplayProd) (contexto : Contexto)
    (u : DisplayProd) (hne : productos ≠ [])
    (hu : contexto.upsellProducto = some u) :
    (((reconciliarUpsell productos contexto).1.filter (fun p => p.id = u.id)).length = 1) ∧
    ((reconciliarUpsell productos contexto).1.getLast? = some { u with esUpsell := true }) ∧
    ((reconciliarUpsell productos contexto).2.upsellProducto = none) := by
  have hie : productos.isEmpty = false := by
    cases productos with
    | nil => exact absurd rfl hne
    | cons a l => rfl
  have hr : reconciliarUpsell productos contexto =
      ((productos.filter (fun p => p.id ≠ u.id)) ++ [{ u with esUpsell := true }],
       { contexto with upsellProducto := none }) := by
    simp only [reconciliarUpsell, hu, hie]
    rfl
  rw [hr]
  refine ⟨?_, ?_, rfl⟩
  · have h0 : (productos.filter (fun p => decide (p.id ≠ u.id))).filter
        (fun p => decide (p.id = u.id)) = [] := by
      rw [List.filter_eq_nil_iff]
      intro a ha
      have := (List.mem_filter.1 ha).2
      simp at this ⊢
      exact this
    simp [List.filter_append, h0]
  · simp

/-- Witness for C2 at a concrete displayed list and candidate. -/
theorem claim_C2_witness :
    ([tarjeta "2", tarjeta "1"] ≠ ([] : List DisplayProd)) ∧
    ((({ upsellProducto := some (tarjeta "1") } : Contexto).upsellProducto =
        some (tarjeta "1")) ∧
     (((reconciliarUpsell [tarjeta "2", tarjeta "1"]
          { upsellProducto := some (tarjeta "1") }).1.filter
            (fun p => p.id = (tarjeta "1").id)).length = 1) ∧
     ((reconciliarUpsell [tarjeta "2", tarjeta "1"]
          { upsellProducto := some (tarjeta "1") }).1.getLast? =
        some { tarjeta "1" with esUpsell := true }) ∧
     ((reconciliarUpsell [tarjeta "2", tarjeta "1"]
          { upsellProducto := some (tarjeta "1") }).2.upsellProducto = none)) :=
  ⟨by decide, by decide,
   claim_C2_upsell_una_vez [tarjeta "2", tarjeta "1"] { upsellProducto := some (tarjeta "1") }
     (tarjeta "1") (by decide) (by decide)⟩

/-- C10: with an empty displayed list the reconciliation step leaves the
whole context, in particular the pending upsell candidate, untouched. -/
theorem claim_C10_upsell_preservado (productos : List DisplayProd) (contexto : Contexto)
    (h : productos = []) :
    ((reconciliarUpsell productos contexto).2 = contexto) ∧
    ((reconciliarUpsell productos contexto).2.upsellProducto = contexto.upsellProducto) ∧
    ((reconciliarUpsell productos contexto).1 = productos) := by
  subst h
  cases hu : contexto.upsellProducto with
  | none => simp [reconciliarUpsell, hu]
  | some u => simp [reconciliarUpsell, hu]

/-- Witness for C10 at a concrete context holding a pending candidate. -/
theorem claim_C10_witness :
    ((reconciliarUpsell [] { upsellProducto := some (tarjeta "7") }).2 =
      { upsellProducto := some (tarjeta "7") }) ∧
    ((reconciliarUpsell [] { upsellProducto := some (tarjeta "7") }).2.upsellProducto =
      some (tarjeta "7")) ∧
    ((reconciliarUpsell [] { upsellProducto := some (tarjeta "7") }).1 = []) :=
  claim_C10_upsell_preservado [] { upsellProducto := some (tarjeta "7") } rfl

/-! ### C4: budget extraction and the 30-unit threshold -/

theorem presupuestoLoopAux_ge30 (ps : List (List Char → Option ℕ)) (ml : List Char)
    (monto : ℕ) (h : presupuestoLoopAux ps ml = some monto) : 30 ≤ monto := by
  induction ps with
  | nil => simp [presupuestoLoopAux] at h
  | cons p rest ih =>
    rw [presupuestoLoopAux] at h
    split at h
    · split at h
      · cases h
        assumption
      · exact ih h
    · exact ih h

/-- Characterization of the budget fields written by extraer_preferencias:
the range match overrides both bounds unconditionally, otherwise the
pattern loop may set the upper bound. -/
theorem extraerPreferencias_presupuesto (mensaje : String) (contexto : Contexto) :
    ((extraerPreferencias mensaje contexto).presupuestoMin =
      (match scanFirst matchRangoAt (pyLower mensaje).toList with
       | some ab => some (ab.1 : ℚ)
       | none => contexto.presupuestoMin)) ∧
    ((extraerPreferencias mensaje contexto).presupuestoMax =
      (match scanFirst matchRangoAt (pyLower mensaje).toList with
       | some ab => some (ab.2 : ℚ)
       | none =>
         match presupuestoLoopAux presupuestoPatrones (pyLower mensaje).toList with
         | some monto => some (monto : ℚ)
         | none => contexto.presupuestoMax)) := by
  constructor <;>
  · cases h1 : primeraCoincidencia ocasionesTabla (pyLower mensaje) <;>
      cases h2 : presupuestoLoopAux presupuestoPatrones (pyLower mensaje).toList <;>
      cases h3 : scanFirst matchRangoAt (pyLower mensaje).toList <;>
      · simp only [extraerPreferencias, h1, h2, h3]
        repeat' split
        all_goals rfl

/-- C4 (amended): the single-amount budget patterns commit a value, always
to the upper bound only, exclusively when the amount is at least 30; the
range pattern however commits both bounds unconditionally, with no
threshold. -/
theorem claim_C4_presupuesto_umbral (mensaje : String) (contexto : Contexto) :
    (scanFirst matchRangoAt (pyLower mensaje).toList = none →
       ((extraerPreferencias mensaje contexto).presupuestoMin = contexto.presupuestoMin ∧
        ((extraerPreferencias mensaje contexto).presupuestoMax = contexto.presupuestoMax ∨
         ∃ monto : ℕ, 30 ≤ monto ∧
           (extraerPreferencias mensaje contexto).presupuestoMax = some (monto : ℚ)))) ∧
    (∀ a b : ℕ, scanFirst matchRangoAt (pyLower mensaje).toList = some (a, b) →
       ((extraerPreferencias mensaje contexto).presupuestoMin = some (a : ℚ) ∧
        (extraerPreferencias mensaje contexto).presupuestoMax = some (b : ℚ))) := by
  obtain ⟨hmin, hmax⟩ := extraerPreferencias_presupuesto mensaje contexto
  constructor
  · intro hr
    rw [hr] at hmin hmax
    refine ⟨hmin, ?_⟩
    cases hl : presupuestoLoopAux presupuestoPatrones (pyLower mensaje).toList with
    | none =>
      rw [hl] at hmax
      exact Or.inl hmax
    | some m =>
      rw [hl] at hmax
      exact Or.inr ⟨m, presupuestoLoopAux_ge30 _ _ _ hl, hmax⟩
  · intro a b hr
    rw [hr] at hmin hmax
    exact ⟨hmin, hmax⟩

/-- Counterexample to C4 as stated: the message with a bare numeric range of
1 to 2 commits both budget bounds although both amounts are far below the
30-unit threshold. -/
theorem claim_C4_counterexample :
    (extraerPreferencias "1 a 2" {} =
      { presupuestoMin := some 1, presupuestoMax := some 2 }) ∧
    ((1 : ℚ) < 30 ∧ (2 : ℚ) < 30) := by
  constructor
  · decide
  · constructor <;> norm_num

/-- Witness for C4 at a concrete range message. -/
theorem claim_C4_witness :
    (extraerPreferencias "entre 40 y 90" {}).presupuestoMin = some 40 ∧
    (extraerPreferencias "entre 40 y 90" {}).presupuestoMax = some 90 :=
  (claim_C4_presupuesto_umbral "entre 40 y 90" {}).2 40 90 (by decide)

/-! ### C5: budget filtering in the proactive and fallback searches -/

theorem insertSorted_perm (lt : α → α → Bool) (x : α) (l : List α) :
    List.Perm (insertSorted lt x l) (x :: l) := by
  induction l with
  | nil => exact List.Perm.refl _
  | cons y ys ih =>
    rw [insertSorted]
    by_cases h : lt y x
    · rw [if_pos h]
      exact (ih.cons y).trans (List.Perm.swap x y ys)
    · rw [if_neg h]

theorem stableSort_perm (lt : α → α → Bool) (l : List α) :
    List.Perm (stableSort lt l) l := by
  induction l with
  | nil => exact List.Perm.refl _
  | cons x xs ih =>
    rw [stableSort]
    exact (insertSorted_perm lt x (stableSort lt xs)).trans (ih.cons x)

theorem pairwise_insertSorted (lt : α → α → Bool)
    (hasym : ∀ a b, lt a b = true → lt b a = false)
    (htrans : ∀ a b c, lt b a = false → lt c b = false → lt c a = false)
    (x : α) (l : List α) (h : l.Pairwise (fun a b => lt b a = false)) :
    (insertSorted lt x l).Pairwise (fun a b => lt b a = false) := by
  induction l with
  | nil => simp [insertSorted]
  | cons y ys ih =>
    rw [List.pairwise_cons] at h
    obtain ⟨h1, h2⟩ := h
    rw [insertSorted]
    by_cases hyx : lt y x
    · rw [if_pos hyx]
      rw [List.pairwise_cons]
      refine ⟨?_, ih h2⟩
      intro z hz
      have hz2 : z = x ∨ z ∈ ys := by
        simpa using (insertSorted_perm lt x ys).mem_iff.1 hz
      rcases hz2 with rfl | hz2
      · exact hasym y z hyx
      · exact h1 z hz2
    · rw [if_neg hyx]
      have hyx0 : lt y x = false := by
        cases hh : lt y x
        · rfl
        · exact absurd hh hyx
      rw [List.pairwise_cons]
      refine ⟨?_, List.pairwise_cons.2 ⟨h1, h2⟩⟩
      intro z hz
      rcases List.mem_cons.1 hz with rfl | hz2
      · exact hyx0
      · exact htrans x y z hyx0 (h1 z hz2)

theorem pairwise_stableSort (lt : α → α → Bool)
    (hasym : ∀ a b, lt a b = true → lt b a = false)
    (htrans : ∀ a b c, lt b a = false → lt c b = false → lt c a = false)
    (l : List α) :
    (stableSort lt l).Pairwise (fun a b => lt b a = false) := by
  induction l with
  | nil => simp [stableSort]
  | cons x xs ih =>
    rw [stableSort]
    exact pairwise_insertSorted lt hasym htrans x _ ih

/-- Unfolding of the fallback sort key as a lexicographic comparison. -/
theorem fallbackKeyLt_eq (a b : DisplayProd) :
    fallbackKeyLt a b =
      (decide ((if a.enPresupuesto.getD false then (0 : ℕ) else 1) <
               (if b.enPresupuesto.getD false then (0 : ℕ) else 1)) ||
       (decide ((if a.enPresupuesto.getD false then (0 : ℕ) else 1) =
                (if b.enPresupuesto.getD false then (0 : ℕ) else 1)) &&
        decide (a.precioNum < b.precioNum))) := rfl

/-- Asymmetry of the strict lexicographic boolean order on a numeric key
pair. -/
theorem lexLt_asymm {α : Type} (k1 : α → ℕ) (k2 : α → ℚ) (a b : α)
    (h : (decide (k1 a < k1 b) || (decide (k1 a = k1 b) && decide (k2 a < k2 b))) = true) :
    (decide (k1 b < k1 a) || (decide (k1 b = k1 a) && decide (k2 b < k2 a))) = false := by
  simp only [Bool.or_eq_true, Bool.and_eq_true, decide_eq_true_eq] at h
  rw [← Bool.not_eq_true]
  intro hc
  simp only [Bool.or_eq_true, Bool.and_eq_true, decide_eq_true_eq] at hc
  rcases h with h | ⟨h1, h2⟩ <;> rcases hc with hc | ⟨hc1, hc2⟩
  · omega
  · omega
  · omega
  · exact absurd hc2 (not_lt.2 (le_of_lt h2))

/-- Transitivity of the complement of that order. -/
theorem lexLt_negtrans {α : Type} (k1 : α → ℕ) (k2 : α → ℚ) (a b c : α)
    (h1 : (decide (k1 b < k1 a) || (decide (k1 b = k1 a) && decide (k2 b < k2 a))) = false)
    (h2 : (decide (k1 c < k1 b) || (decide (k1 c = k1 b) && decide (k2 c < k2 b))) = false) :
    (decide (k1 c < k1 a) || (decide (k1 c = k1 a) && decide (k2 c < k2 a))) = false := by
  rw [← Bool.not_eq_true] at h1 h2 ⊢
  simp only [Bool.or_eq_true, Bool.and_eq_true, decide_eq_true_eq, not_or, not_and] at h1 h2 ⊢
  obtain ⟨h1a, h1b⟩ := h1
  obtain ⟨h2a, h2b⟩ := h2
  constructor
  · omega
  · intro hca
    have hab : k1 b = k1 a := by omega
    have hcb : k1 c = k1 b := by omega
    have hba := h1b hab
    have hbc := h2b hcb
    intro hlt
    have : k2 a ≤ k2 b := not_lt.1 hba
    have : k2 b ≤ k2 c := not_lt.1 hbc
    linarith [not_lt.1 hba, not_lt.1 hbc]

/-- C5 (amended): the proactive search keeps exactly the candidates with
final price at or under the budget, falling back to the three cheapest in
ascending order and never returning empty; the fallback search instead
ranks every candidate by the pair of the 1.2-tolerance en_presupuesto flag
and the price and keeps the best three, also never empty. -/
theorem claim_C5_filtrado_presupuesto (productos : List ProductoRaw) (presupuesto : ℚ) :
    ((productos.filter (fun p => p.rawPrecioFinal ≤ presupuesto) ≠ []) →
       (∀ p, p ∈ filtrarPorPresupuestoProactivo productos presupuesto ↔
          p ∈ productos ∧ p.rawPrecioFinal ≤ presupuesto)) ∧
    ((productos.filter (fun p => p.rawPrecioFinal ≤ presupuesto) = []) →
       ((filtrarPorPresupuestoProactivo productos presupuesto).length =
          min 3 productos.length ∧
        (filtrarPorPresupuestoProactivo productos presupuesto).Pairwise
          (fun a b => a.rawPrecioFinal ≤ b.rawPrecioFinal) ∧
        ∀ p ∈ filtrarPorPresupuestoProactivo productos presupuesto, p ∈ productos)) ∧
    (productos ≠ [] → filtrarPorPresupuestoProactivo productos presupuesto ≠ []) ∧
    ((fallbackFiltrarOrdenar productos presupuesto).length = min 3 productos.length) ∧
    ((fallbackFiltrarOrdenar productos presupuesto).Pairwise
        (fun a b => fallbackKeyLt b a = false)) ∧
    (∀ d ∈ fallbackFiltrarOrdenar productos presupuesto,
       ∃ p ∈ productos, d = displayFallbackDeRaw presupuesto p) ∧
    (productos ≠ [] → fallbackFiltrarOrdenar productos presupuesto ≠ []) := by
  have hasymP : ∀ a b : ProductoRaw,
      (decide (a.rawPrecioFinal < b.rawPrecioFinal) : Bool) = true →
      (decide (b.rawPrecioFinal < a.rawPrecioFinal) : Bool) = false := by
    intro a b h
    simp only [decide_eq_true_eq] at h
    simpa using not_lt.2 (le_of_lt h)
  have htransP : ∀ a b c : ProductoRaw,
      (decide (b.rawPrecioFinal < a.rawPrecioFinal) : Bool) = false →
      (decide (c.rawPrecioFinal < b.rawPrecioFinal) : Bool) = false →
      (decide (c.rawPrecioFinal < a.rawPrecioFinal) : Bool) = false := by
    intro a b c h1 h2
    simp only [decide_eq_false_iff_not] at h1 h2 ⊢
    intro hlt
    exact h1 (lt_of_le_of_lt (not_lt.1 h2) hlt)
  constructor
  · intro hf p
    have hie : (productos.filter (fun p => p.rawPrecioFinal ≤ presupuesto)).isEmpty = false := by
      cases hx : productos.filter (fun p => p.rawPrecioFinal ≤ presupuesto) with
      | nil => exact absurd hx hf
      | cons a l => rfl
    simp only [filtrarPorPresupuestoProactivo, hie, Bool.false_eq_true, if_false]
    simp [List.mem_filter]
  constructor
  · intro hf
    have hie : (productos.filter (fun p => p.rawPrecioFinal ≤ presupuesto)).isEmpty = true := by
      rw [hf]
      rfl
    simp only [filtrarPorPresupuestoProactivo, hie, if_true]
    refine ⟨?_, ?_, ?_⟩
    · rw [List.length_take, (stableSort_perm _ productos).length_eq]
    · have hp := pairwise_stableSort
        (fun a b : ProductoRaw => a.rawPrecioFinal < b.rawPrecioFinal) hasymP htransP productos
      have hp2 := hp.sublist (List.take_sublist 3 _)
      refine hp2.imp ?_
      intro a b hab
      simpa [not_lt] using hab
    · intro p hp
      exact (stableSort_perm _ productos).mem_iff.1 (List.mem_of_mem_take hp)
  constructor
  · intro hne
    have hpos : 0 < productos.length := List.length_pos.2 hne
    cases hie : (productos.filter (fun p => p.rawPrecioFinal ≤ presupuesto)).isEmpty with
    | false =>
      simp only [filtrarPorPresupuestoProactivo, hie, Bool.false_eq_true, if_false]
      intro hcontra
      rw [← List.isEmpty_iff] at hcontra
      rw [hcontra] at hie
      cases hie
    | true =>
      simp only [filtrarPorPresupuestoProactivo, hie, if_true]
      intro hcontra
      have := congrArg List.length hcontra
      rw [List.length_take, (stableSort_perm _ productos).length_eq] at this
      simp only [List.length_nil] at this
      omega
  have hlenFb : (fallbackFiltrarOrdenar productos presupuesto).length =
      min 3 productos.length := by
    rw [fallbackFiltrarOrdenar, List.length_take, (stableSort_perm _ _).length_eq,
      List.length_map]
  refine ⟨hlenFb, ?_, ?_, ?_⟩
  · have hasymF : ∀ a b : DisplayProd, fallbackKeyLt a b = true → fallbackKeyLt b a = false := by
      intro a b h
      rw [fallbackKeyLt_eq] at h ⊢
      exact lexLt_asymm (fun d => if d.enPresupuesto.getD false then (0 : ℕ) else 1)
        (fun d => d.precioNum) a b h
    have htransF : ∀ a b c : DisplayProd, fallbackKeyLt b a = false →
        fallbackKeyLt c b = false → fallbackKeyLt c a = false := by
      intro a b c h1 h2
      rw [fallbackKeyLt_eq] at h1 h2 ⊢
      exact lexLt_negtrans (fun d => if d.enPresupuesto.getD false then (0 : ℕ) else 1)
        (fun d => d.precioNum) a b c h1 h2
    have hp := pairwise_stableSort fallbackKeyLt hasymF htransF
      (productos.map (displayFallbackDeRaw presupuesto))
    exact hp.sublist (List.take_sublist 3 _)
  · intro d hd
    have hmem := (stableSort_perm fallbackKeyLt _).mem_iff.1 (List.mem_of_mem_take hd)
    obtain ⟨p, hp, rfl⟩ := List.mem_map.1 hmem
    exact ⟨p, hp, rfl⟩
  · intro hne
    have hpos : 0 < productos.length := List.length_pos.2 hne
    intro hcontra
    have := congrArg List.length hcontra
    rw [hlenFb] at this
    simp only [List.length_nil] at this
    omega

/-- Counterexample to C5 as stated: with candidate prices 50, 120 and 200
and a budget of 100 the fallback search returns all three candidates, not
only the 50-priced one, because its tolerance is 1.2 times the budget and
out-of-tolerance candidates are ranked after, not dropped. -/
theorem claim_C5_counterexample :
    ((fallbackFiltrarOrdenar listaC5 100).map (fun d => d.precioNum) = [50, 120, 200]) ∧
    ¬ (∀ d ∈ fallbackFiltrarOrdenar listaC5 100, d.precioNum ≤ 100) := by
  have hmap : (fallbackFiltrarOrdenar listaC5 100).map (fun d => d.precioNum) =
      [50, 120, 200] := by
    norm_num [fallbackFiltrarOrdenar, listaC5, rawConPrecio, displayFallbackDeRaw, stableSort,
      insertSorted, fallbackKeyLt]
  refine ⟨hmap, ?_⟩
  intro hall
  have h120 : (120 : ℚ) ∈ (fallbackFiltrarOrdenar listaC5 100).map (fun d => d.precioNum) := by
    rw [hmap]
    simp
  obtain ⟨d, hd, hdp⟩ := List.mem_map.1 h120
  have hle := hall d hd
  rw [hdp] at hle
  norm_num at hle

/-- Witness for C5 at the spec prices: the proactive filter result is
non-empty. -/
theorem claim_C5_witness :
    filtrarPorPresupuestoProactivo listaC5 100 ≠ [] :=
  (claim_C5_filtrado_presupuesto listaC5 100).2.2.1 (by decide)

/-! ### C6: idempotence of the proactive search -/

/-- The proactive search reads the context only through the occasion,
color, flower, product-type and budget fields: two contexts agreeing there
produce the same excerpt, and either both pass the context through
untouched or both write the same upsell candidate and id. -/
theorem buscarProactivo_read_eq (svc : Services) (m : String) (c1 c2 : Contexto)
    (h1 : c1.ocasion = c2.ocasion) (h2 : c1.colorPreferido = c2.colorPreferido)
    (h3 : c1.florPreferida = c2.florPreferida) (h4 : c1.tipoProducto = c2.tipoProducto)
    (h5 : c1.presupuestoMin = c2.presupuestoMin) (h6 : c1.presupuestoMax = c2.presupuestoMax) :
    ((buscarProductosProactivo svc m c1).1 = (buscarProductosProactivo svc m c2).1) ∧
    (((buscarProductosProactivo svc m c1).2 = c1 ∧
      (buscarProductosProactivo svc m c2).2 = c2) ∨
     (∃ u i, (buscarProductosProactivo svc m c1).2 =
         { c1 with upsellProducto := some u, ultimoUpsellId := some i } ∧
       (buscarProductosProactivo svc m c2).2 =
         { c2 with upsellProducto := some u, ultimoUpsellId := some i })) := by
  simp only [buscarProductosProactivo, construirQueryParts, h1, h2, h3, h4, h5, h6]
  repeat' split
  all_goals
    first
      | exact ⟨rfl, Or.inl ⟨rfl, rfl⟩⟩
      | exact ⟨rfl, Or.inr ⟨_, _, rfl, rfl⟩⟩

/-- C6: running the proactive search a second time, on the conversation
state the first run left behind and with the same message and catalogue,
yields the identical catalogue excerpt and the identical upsell candidate
(both context keys). -/
theorem claim_C6_idempotencia_proactiva (svc : Services) (mensaje : String)
    (contexto : Contexto) :
    ((buscarProductosProactivo svc mensaje
        (buscarProductosProactivo svc mensaje contexto).2).1 =
      (buscarProductosProactivo svc mensaje contexto).1) ∧
    ((buscarProductosProactivo svc mensaje
        (buscarProductosProactivo svc mensaje contexto).2).2.upsellProducto =
      (buscarProductosProactivo svc mensaje contexto).2.upsellProducto) ∧
    ((buscarProductosProactivo svc mensaje
        (buscarProductosProactivo svc mensaje contexto).2).2.ultimoUpsellId =
      (buscarProductosProactivo svc mensaje contexto).2.ultimoUpsellId) := by
  obtain ⟨-, hshape⟩ :=
    buscarProactivo_read_eq svc mensaje contexto contexto rfl rfl rfl rfl rfl rfl
  rcases hshape with ⟨he, -⟩ | ⟨u, i, he, -⟩
  · simp [he]
  · obtain ⟨hexc, hctx2⟩ := buscarProactivo_read_eq svc mensaje
      ((buscarProductosProactivo svc mensaje contexto).2) contexto
      (by rw [he]) (by rw [he]) (by rw [he]) (by rw [he]) (by rw [he]) (by rw [he])
    refine ⟨hexc, ?_⟩
    rcases hctx2 with ⟨ha, -⟩ | ⟨u2, i2, ha, hb⟩
    · rw [ha]
      exact ⟨rfl, rfl⟩
    · constructor
      · rw [ha, hb]
      · rw [ha, hb]

/-! ### C7: cart exclusion in the upsell-acceptance detector -/

theorem claim_C7_exclusion_carrito (svc : Services) (mensaje : String) (conv : Conversacion) :
    (∀ r, detectarUpsellingResponse svc mensaje conv = some r →
       pyIn "globo" (ofertaEncontrada conv.mensajes) = true →
       ∀ p ∈ r.productos, (carritoIds conv.carrito).contains p.id = false) ∧
    (∀ r, detectarUpsellingResponse svc mensaje conv = some r →
       pyIn "globo" (ofertaEncontrada conv.mensajes) = false →
       pyIn "chocolate" (ofertaEncontrada conv.mensajes) = true →
       ∀ p ∈ r.productos, (carritoIds conv.carrito).contains p.id = false ∧
         (∀ n ∈ carritoNombres conv.carrito, n ≠ "" → pyIn n (pyLower p.nombre) = false)) ∧
    (pyIn "globo" (ofertaEncontrada conv.mensajes) = false →
     pyIn "chocolate" (ofertaEncontrada conv.mensajes) = true →
     (svc.mcpBuscar "chocolates").filter (fun x =>
         !((carritoIds conv.carrito).contains x.rawId) &&
         !((carritoNombres conv.carrito).any
             (fun n => n ≠ "" && pyIn n (pyLower x.rawProducto)))) = [] →
     detectarUpsellingResponse svc mensaje conv = none) ∧
    (pyIn "globo" (ofertaEncontrada conv.mensajes) = false →
     pyIn "chocolate" (ofertaEncontrada conv.mensajes) = false →
     ∀ r, detectarUpsellingResponse svc mensaje conv = some r →
       r.productos = ((svc.mcpBuscar "peluche").take 3).map displayUpsellDeRaw) := by
  refine ⟨?_, ?_, ?_, ?_⟩
  · -- balloon branch: exclusion by id only
    intro r hr hg p hp
    simp only [detectarUpsellingResponse] at hr
    cases h1 : pyIn "carrito" (pyStrip (pyLower mensaje)) ||
        pyIn "agregar" (pyStrip (pyLower mensaje)) with
    | true => simp [h1] at hr
    | false =>
    cases h2 : afirmaciones.any (fun a =>
        pyStartsWith (pyStrip (pyLower mensaje)) a || pyStrip (pyLower mensaje) = a) with
    | false => simp [h1, h2] at hr
    | true =>
    by_cases h3 : ofertaEncontrada conv.mensajes = ""
    · simp [h1, h2, h3] at hr
    · simp only [h1, h2, hg, if_neg h3, Bool.false_eq_true, if_false, Bool.not_true,
        Bool.not_false, if_true] at hr
      cases h5 : svc.mcpBuscar "globos" with
      | nil => simp [h5] at hr
      | cons g gs =>
        simp only [h5] at hr
        split at hr
        · exact Option.noConfusion hr
        · injection hr with hr
          subst hr
          obtain ⟨x, hx, hfx⟩ := List.mem_filterMap.1 hp
          split at hfx
          · exact Option.noConfusion hfx
          · rename_i h7
            injection hfx with hfx
            rw [← hfx]
            cases hb : (carritoIds conv.carrito).contains x.rawId with
            | true => exact absurd hb h7
            | false => simpa [displayUpsellDeRaw] using hb
  · -- chocolate branch: exclusion by id and by name fragment
    intro r hr hg hc p hp
    simp only [detectarUpsellingResponse] at hr
    cases h1 : pyIn "carrito" (pyStrip (pyLower mensaje)) ||
        pyIn "agregar" (pyStrip (pyLower mensaje)) with
    | true => simp [h1] at hr
    | false =>
    cases h2 : afirmaciones.any (fun a =>
        pyStartsWith (pyStrip (pyLower mensaje)) a || pyStrip (pyLower mensaje) = a) with
    | false => simp [h1, h2] at hr
    | true =>
    by_cases h3 : ofertaEncontrada conv.mensajes = ""
    · simp [h1, h2, h3] at hr
    · simp only [h1, h2, hg, hc, if_neg h3, Bool.false_eq_true, if_false, Bool.not_true,
        Bool.not_false, if_true] at hr
      cases h5 : svc.mcpBuscar "chocolates" with
      | nil => simp [h5] at hr
      | cons c cs =>
        simp only [h5] at hr
        split at hr
        · rename_i hfilne
          split at hr
          · exact Option.noConfusion hr
          · injection hr with hr
            subst hr
            obtain ⟨x, hxt, rfl⟩ := List.mem_map.1 hp
            have hxf := List.mem_of_mem_take hxt
            obtain ⟨hmem, hcond⟩ := List.mem_filter.1 hxf
            rw [Bool.and_eq_true] at hcond
            obtain ⟨hA, hB⟩ := hcond
            have hid : (carritoIds conv.carrito).contains x.rawId = false := by
              simpa using hA
            have hany : (carritoNombres conv.carrito).any
                (fun n => n ≠ "" && pyIn n (pyLower x.rawProducto)) = false := by
              simpa using hB
            refine ⟨by simpa [displayUpsellDeRaw] using hid, ?_⟩
            intro n hn hnne
            have hone := List.any_eq_false.1 hany n hn
            have hfalse : (decide (n ≠ "") && pyIn n (pyLower x.rawProducto)) = false := by
              simpa using hone
            cases hpy : pyIn n (pyLower x.rawProducto) with
            | false => simpa [displayUpsellDeRaw] using hpy
            | true =>
              rw [hpy] at hfalse
              simp [hnne] at hfalse
        · split at hr
          · exact Option.noConfusion hr
          · rename_i hie
            simp at hie
  · -- every chocolate candidate excluded: the detector returns nothing
    intro hg hc hfil
    simp only [detectarUpsellingResponse]
    cases h1 : pyIn "carrito" (pyStrip (pyLower mensaje)) ||
        pyIn "agregar" (pyStrip (pyLower mensaje)) with
    | true => simp [h1]
    | false =>
    cases h2 : afirmaciones.any (fun a =>
        pyStartsWith (pyStrip (pyLower mensaje)) a || pyStrip (pyLower mensaje) = a) with
    | false => simp [h1, h2]
    | true =>
    by_cases h3 : ofertaEncontrada conv.mensajes = ""
    · simp [h1, h2, h3]
    · simp only [h1, h2, hg, hc, if_neg h3, Bool.false_eq_true, if_false, Bool.not_true,
        Bool.not_false, if_true]
      cases h5 : svc.mcpBuscar "chocolates" with
      | nil => simp
      | cons c cs =>
        simp only [h5]
        rw [h5] at hfil
        rw [hfil]
        simp
  · -- plush branch: candidates are not filtered against the cart
    intro hg hc r hr
    simp only [detectarUpsellingResponse] at hr
    cases h1 : pyIn "carrito" (pyStrip (pyLower mensaje)) ||
        pyIn "agregar" (pyStrip (pyLower mensaje)) with
    | true => simp [h1] at hr
    | false =>
    cases h2 : afirmaciones.any (fun a =>
        pyStartsWith (pyStrip (pyLower mensaje)) a || pyStrip (pyLower mensaje) = a) with
    | false => simp [h1, h2] at hr
    | true =>
    by_cases h3 : ofertaEncontrada conv.mensajes = ""
    · simp [h1, h2, h3] at hr
    · simp only [h1, h2, hg, hc, if_neg h3, Bool.false_eq_true, if_false, Bool.not_true,
        Bool.not_false, if_true] at hr
      cases h4 : pyIn "peluche" (ofertaEncontrada conv.mensajes) with
      | false => simp [h4] at hr
      | true =>
        simp only [h4, if_true] at hr
        cases h5 : svc.mcpBuscar "peluche" with
        | nil => simp [h5] at hr
        | cons p ps =>
          simp only [h5] at hr
          split at hr
          · exact Option.noConfusion hr
          · injection hr with hr
            subst hr
            rfl

/-- Counterexample to C7 as stated: in the chocolate scenario with every
candidate already in the cart the detector returns nothing instead of a
reply, and in the plush scenario a candidate already in the cart is not
excluded from the returned set. -/
theorem claim_C7_counterexample :
    (detectarUpsellingResponse svcChoco "si" convChoco = none) ∧
    ((detectarUpsellingResponse svcPel "si" convPel).map
        (fun r => r.productos.map (fun p => p.id)) = some ["P1"]) ∧
    ((carritoIds convPel.carrito).contains "P1" = true) := by
  refine ⟨?_, ?_, ?_⟩ <;> decide

/-- Witness for C7 at the concrete balloon scenario. -/
theorem claim_C7_witness :
    (carritoIds convGlobos.carrito).contains (displayUpsellDeRaw globoRaw2).id = false :=
  (claim_C7_exclusion_carrito svcGlobos "si" convGlobos).1 respGlobos (by decide) (by decide)
    (displayUpsellDeRaw globoRaw2) (by decide)

/-- C3 (amended): a PRODUCTO directive with fewer than three pipe-delimited
fields leaves the text, the display list and the action list untouched (the
tag is not stripped, and the side effect is omitted); a GENERAR_CHECKOUT
with an absent or empty cart likewise leaves its tag in place with no side
effect; a PRODUCTO directive with at least three fields whose price passes
the dot-stripped digit guard without being a float literal aborts the whole
parse with a ValueError; and, when no explicit checkout directive is
present and the product pass raises no such error, processing of the
remaining text completes with a best-effort cleaned string. -/
theorem claim_C3_tags_malformados :
    (∀ (st : EstadoAcciones) (m : String), (pySplitPipe m).length < 3 →
       procesarProductoUno st m = Except.ok st) ∧
    (∀ (picks : ℕ → ℕ) (respuesta : String) (st : EstadoAcciones) (c : Option Carrito),
       (c = none ∨ ∃ cc, c = some cc ∧ cc.items = []) →
       procesarGenerarCheckout picks respuesta st c = st) ∧
    (∀ (st : EstadoAcciones) (m : String),
       3 ≤ (pySplitPipe m).length →
       esNumericoSinPunto (pyStrip ((pySplitPipe m).getD 2 "")) = true →
       pyFloatOpt (pyStrip ((pySplitPipe m).getD 2 "")) = none →
       procesarProductoUno st m =
         Except.error ("ValueError: could not convert string to float: " ++
           pyStrip ((pySplitPipe m).getD 2 ""))) ∧
    (∀ (svc : Services) (picks1 picks2 : ℕ → ℕ) (respuesta : String) (conv : Conversacion)
       (st1 : EstadoAcciones),
       findFirstTag "CHECKOUT" respuesta = none →
       procesarProductos respuesta (respuesta, [], []) = Except.ok st1 →
       ∃ out, procesarAcciones svc picks1 picks2 respuesta conv = Except.ok out) := by
  refine ⟨?_, ?_, ?_, ?_⟩
  · intro st m h
    simp only [procesarProductoUno]
    rw [if_neg (by omega)]
  · intro picks respuesta st c hc
    rcases hc with rfl | ⟨cc, rfl, hcc⟩
    · cases hpy : pyIn "[GENERAR_CHECKOUT]" respuesta <;>
        simp [procesarGenerarCheckout, hpy]
    · cases hpy : pyIn "[GENERAR_CHECKOUT]" respuesta <;>
        simp [procesarGenerarCheckout, hpy, hcc]
  · intro st m hlen hguard hfloat
    simp only [procesarProductoUno]
    rw [if_pos hlen, if_pos (by rw [hguard, hfloat]; rfl)]
  · intro svc picks1 picks2 respuesta conv st1 hfind hprod
    have hchk : ∀ (st : EstadoAcciones) (c : Option Carrito),
        procesarCheckout picks1 respuesta st c = Except.ok st := by
      intro st c
      simp [procesarCheckout, hfind]
    simp only [procesarAcciones, hprod, hchk]
    exact ⟨_, rfl⟩

/-- Counterexample to C3 as stated: a PRODUCTO tag with two fields and a
GENERAR_CHECKOUT with an empty cart are both left verbatim in the visible
text the parser returns, not stripped; and a PRODUCTO tag whose price 1.2.3
passes the digit guard but is no float literal aborts the parse with a
ValueError even though no explicit checkout directive is present. -/
theorem claim_C3_counterexample :
    (procesarAcciones svcVacio (fun _ => 0) (fun _ => 0)
        "Mira [PRODUCTO:1|solo] bien [GENERAR_CHECKOUT]" convVacia =
      Except.ok ("Mira [PRODUCTO:1|solo] bien [GENERAR_CHECKOUT]", [], [], convVacia)) ∧
    (pyIn "[PRODUCTO:1|solo]" "Mira [PRODUCTO:1|solo] bien [GENERAR_CHECKOUT]" = true) ∧
    (pyIn "[GENERAR_CHECKOUT]" "Mira [PRODUCTO:1|solo] bien [GENERAR_CHECKOUT]" = true) ∧
    (procesarAcciones svcVacio (fun _ => 0) (fun _ => 0)
        "Mira [PRODUCTO:1|a|1.2.3] bien" convVacia =
      Except.error "ValueError: could not convert string to float: 1.2.3") := by
  refine ⟨by rfl, by decide, by decide, by rfl⟩

/-- Witness for C3 at concrete malformed directives. -/
theorem claim_C3_witness :
    (procesarProductoUno ("t", [], []) "1|solo" = Except.ok ("t", [], [])) ∧
    (procesarGenerarCheckout (fun _ => 0) "x [GENERAR_CHECKOUT]" ("t", [], []) none =
      ("t", [], [])) ∧
    (procesarProductoUno ("t", [], []) "1|a|1.2.3" =
      Except.error "ValueError: could not convert string to float: 1.2.3") ∧
    ((procesarAcciones svcVacio (fun _ => 0) (fun _ => 0) "hola [PRODUCTO:2|a]"
        convVacia).toOption.isSome = true) := by
  refine ⟨claim_C3_tags_malformados.1 ("t", [], []) "1|solo" (by decide),
    claim_C3_tags_malformados.2.1 (fun _ => 0) "x [GENERAR_CHECKOUT]" ("t", [], []) none
      (Or.inl rfl),
    claim_C3_tags_malformados.2.2.1 ("t", [], []) "1|a|1.2.3" (by decide) (by decide)
      (by decide), ?_⟩
  obtain ⟨out, hout⟩ := claim_C3_tags_malformados.2.2.2 svcVacio (fun _ => 0) (fun _ => 0)
    "hola [PRODUCTO:2|a]" convVacia ("hola [PRODUCTO:2|a]", [], []) (by decide) (by rfl)
  rw [hout]
  rfl

/-! ## C8: the explicit-checkout directive with the placeholder code -/

/-- Any alphabet lookup at a reduced index lands in the alphabet. -/
theorem alfabetoCodigo_getD_mem (n : ℕ) :
    alfabetoCodigo.getD (n % 36) 'A' ∈ alfabetoCodigo := by
  have h36 : n % 36 < alfabetoCodigo.length := by
    have := Nat.mod_lt n (show 0 < 36 by norm_num)
    simpa [alfabetoCodigo] using this
  rw [List.getD_eq_getElem alfabetoCodigo 'A' h36]
  exact List.getElem_mem h36

/-- C8 (code bug): the generated placeholder code is always RST followed by
eight characters of the uppercase-plus-digits alphabet, but whenever the
conversation carries a cart - the scenario the claim describes - the
explicit-checkout branch aborts with an attribute error before recording
any side effect, because Carrito defines no to_dict method. -/
theorem claim_C8_checkout_attribute_error :
    (procesarAcciones svcVacio (fun _ => 10) (fun _ => 0)
        "paga [CHECKOUT:codigo_random]" { convVacia with carrito := some carritoC8 } =
      Except.error "AttributeError: Carrito object has no attribute to_dict") ∧
    (∀ picks : ℕ → ℕ,
      pyStartsWith (generarCodigoCarrito picks) "RST" = true ∧
      (generarCodigoCarrito picks).toList.length = 11 ∧
      ∀ i : Fin 8,
        (generarCodigoCarrito picks).toList.getD (3 + i.1) 'A' ∈ alfabetoCodigo) := by
  refine ⟨rfl, ?_⟩
  intro picks
  refine ⟨rfl, rfl, ?_⟩
  intro i
  fin_cases i <;> exact alfabetoCodigo_getD_mem _

/-! ## C9: at most one side effect per first-occurrence directive kind -/

/-- A successful product-display step never adds an action of another
kind. -/
theorem countP_procesarProductoUno (p : Accion → Bool)
    (hp : ∀ d, p (Accion.mostrarProducto d) = false) (st : EstadoAcciones) (m : String)
    (st2 : EstadoAcciones) (h : procesarProductoUno st m = Except.ok st2) :
    st2.2.2.countP p = st.2.2.countP p := by
  simp only [procesarProductoUno] at h
  split at h
  · split at h
    · exact Except.noConfusion h
    · injection h with h
      subst h
      simp [List.countP_append, hp]
  · injection h with h
    subst h
    rfl

/-- A successful run of the product-display loop body over a match list
preserves the count of any other action kind. -/
theorem countP_foldlM_productoUno (p : Accion → Bool)
    (hp : ∀ d, p (Accion.mostrarProducto d) = false) :
    ∀ (ms : List String) (st st2 : EstadoAcciones),
      ms.foldlM procesarProductoUno st = Except.ok st2 →
      st2.2.2.countP p = st.2.2.countP p
  | [], st, st2, h => by
      injection h with h
      subst h
      rfl
  | m :: ms, st, st2, h => by
      rw [List.foldlM_cons] at h
      cases hm : procesarProductoUno st m with
      | error e =>
          rw [hm] at h
          exact Except.noConfusion h
      | ok s =>
          rw [hm] at h
          have hs : List.foldlM procesarProductoUno s ms = Except.ok st2 := h
          rw [countP_foldlM_productoUno p hp ms s st2 hs,
            countP_procesarProductoUno p hp st m s hm]

/-- A successful product-display pass preserves the count of any other
action kind. -/
theorem countP_procesarProductos (p : Accion → Bool)
    (hp : ∀ d, p (Accion.mostrarProducto d) = false) (r : String)
    (st st2 : EstadoAcciones) (h : procesarProductos r st = Except.ok st2) :
    st2.2.2.countP p = st.2.2.countP p :=
  countP_foldlM_productoUno p hp (findAllTags "PRODUCTO" r) st st2 h

/-- The legacy-search pass preserves the count of any other action kind. -/
theorem countP_procesarBuscar_other (p : Accion → Bool)
    (hp : ∀ q n, p (Accion.buscar q n) = false) (svc : Services) (r : String)
    (st : EstadoAcciones) :
    (procesarBuscar svc r st).2.2.countP p = st.2.2.countP p := by
  simp only [procesarBuscar]
  split
  · rfl
  · split <;> simp [List.countP_append, hp]

/-- The legacy-search pass adds at most one search action. -/
theorem countP_procesarBuscar_le (svc : Services) (r : String) (st : EstadoAcciones) :
    (procesarBuscar svc r st).2.2.countP esAccionBuscar ≤
      st.2.2.countP esAccionBuscar + 1 := by
  simp only [procesarBuscar]
  split
  · omega
  · split <;> simp [List.countP_append, esAccionBuscar]

/-- The add-to-cart pass preserves the count of any other action kind. -/
theorem countP_procesarAgregar_other (p : Accion → Bool)
    (hp : ∀ i n q, p (Accion.agregarCarrito i n q) = false) (svc : Services)
    (r : String) (st : EstadoAcciones) (conv : Conversacion) :
    (procesarAgregar svc r st conv).1.2.2.countP p = st.2.2.countP p := by
  simp only [procesarAgregar]
  split
  · rfl
  · split
    · rfl
    · simp [List.countP_append, hp]

/-- The add-to-cart pass adds at most one add action. -/
theorem countP_procesarAgregar_le (svc : Services) (r : String) (st : EstadoAcciones)
    (conv : Conversacion) :
    (procesarAgregar svc r st conv).1.2.2.countP esAccionAgregar ≤
      st.2.2.countP esAccionAgregar + 1 := by
  simp only [procesarAgregar]
  split
  · exact Nat.le_add_right _ 1
  · split
    · exact Nat.le_add_right _ 1
    · simp [List.countP_append, esAccionAgregar]

/-- A successful explicit-checkout pass preserves the count of any other
action kind. -/
theorem countP_procesarCheckout_other (p : Accion → Bool)
    (hp : ∀ c u o, p (Accion.checkout c u o) = false) (picks : ℕ → ℕ) (r : String)
    (st : EstadoAcciones) (c : Option Carrito) (st2 : EstadoAcciones)
    (h : procesarCheckout picks r st c = Except.ok st2) :
    st2.2.2.countP p = st.2.2.countP p := by
  simp only [procesarCheckout] at h
  split at h
  · injection h with h
    subst h
    rfl
  · split at h
    · exact Except.noConfusion h
    · injection h with h
      subst h
      simp [List.countP_append, hp]

/-- A successful explicit-checkout pass adds at most one checkout action. -/
theorem countP_procesarCheckout_le (picks : ℕ → ℕ) (r : String)
    (st : EstadoAcciones) (c : Option Carrito) (st2 : EstadoAcciones)
    (h : procesarCheckout picks r st c = Except.ok st2) :
    st2.2.2.countP esAccionCheckoutTag ≤ st.2.2.countP esAccionCheckoutTag + 1 := by
  simp only [procesarCheckout] at h
  split at h
  · injection h with h
    subst h
    omega
  · split at h
    · exact Except.noConfusion h
    · injection h with h
      subst h
      simp [List.countP_append, esAccionCheckoutTag]

/-- The view-cart pass preserves the count of any other action kind. -/
theorem countP_procesarVerCarrito (p : Accion → Bool) (hp : p Accion.verCarrito = false)
    (r : String) (st : EstadoAcciones) (c : Option Carrito) :
    (procesarVerCarrito r st c).2.2.countP p = st.2.2.countP p := by
  simp only [procesarVerCarrito]
  split
  · simp [List.countP_append, hp]
  · rfl

/-- The generate-checkout pass preserves the count of any other action
kind. -/
theorem countP_procesarGenerarCheckout (p : Accion → Bool)
    (hp : ∀ c u, p (Accion.checkoutGenerado c u) = false) (picks : ℕ → ℕ) (r : String)
    (st : EstadoAcciones) (c : Option Carrito) :
    (procesarGenerarCheckout picks r st c).2.2.countP p = st.2.2.countP p := by
  simp only [procesarGenerarCheckout]
  split
  · split
    · split
      · simp [List.countP_append, hp]
      · rfl
    · rfl
  · rfl

/-- C9 (amended): every successful parse applies at most one add-to-cart, at
most one legacy-search and at most one explicit-checkout side effect -
duplicate directives of these kinds never yield duplicate effects. -/
theorem claim_C9_primera_ocurrencia (svc : Services) (picks1 picks2 : ℕ → ℕ)
    (respuesta : String) (conv : Conversacion)
    (out : String × List DisplayProd × List Accion × Conversacion)
    (h : procesarAcciones svc picks1 picks2 respuesta conv = Except.ok out) :
    out.2.2.1.countP esAccionAgregar ≤ 1 ∧
    out.2.2.1.countP esAccionBuscar ≤ 1 ∧
    out.2.2.1.countP esAccionCheckoutTag ≤ 1 := by
  simp only [procesarAcciones] at h
  split at h
  · exact Except.noConfusion h
  · rename_i st1 hprod
    split at h
    · exact Except.noConfusion h
    · rename_i st4 hchk
      injection h with h
      subst h
      refine ⟨?_, ?_, ?_⟩
      · rw [show (pyStrip _, _, _, _).2.2.1 = _ from rfl]
        rw [countP_procesarGenerarCheckout esAccionAgregar (fun _ _ => rfl),
          countP_procesarVerCarrito esAccionAgregar rfl,
          countP_procesarCheckout_other esAccionAgregar (fun _ _ _ => rfl) _ _ _ _ _ hchk]
        have h1 := countP_procesarAgregar_le svc respuesta
          (procesarBuscar svc respuesta st1) conv
        have h2 := countP_procesarBuscar_other esAccionAgregar (fun _ _ => rfl) svc
          respuesta st1
        have h3 := countP_procesarProductos esAccionAgregar (fun _ => rfl) respuesta
          (respuesta, [], []) st1 hprod
        simp only [h2, h3] at h1
        simpa using h1
      · rw [show (pyStrip _, _, _, _).2.2.1 = _ from rfl]
        rw [countP_procesarGenerarCheckout esAccionBuscar (fun _ _ => rfl),
          countP_procesarVerCarrito esAccionBuscar rfl,
          countP_procesarCheckout_other esAccionBuscar (fun _ _ _ => rfl) _ _ _ _ _ hchk,
          countP_procesarAgregar_other esAccionBuscar (fun _ _ _ => rfl)]
        have h1 := countP_procesarBuscar_le svc respuesta st1
        have h3 := countP_procesarProductos esAccionBuscar (fun _ => rfl) respuesta
          (respuesta, [], []) st1 hprod
        simp only [h3] at h1
        simpa using h1
      · rw [show (pyStrip _, _, _, _).2.2.1 = _ from rfl]
        rw [countP_procesarGenerarCheckout esAccionCheckoutTag (fun _ _ => rfl),
          countP_procesarVerCarrito esAccionCheckoutTag rfl]
        have h1 := countP_procesarCheckout_le _ _ _ _ _ hchk
        rw [countP_procesarAgregar_other esAccionCheckoutTag (fun _ _ _ => rfl),
          countP_procesarBuscar_other esAccionCheckoutTag (fun _ _ => rfl),
          countP_procesarProductos esAccionCheckoutTag (fun _ => rfl) respuesta
            (respuesta, [], []) st1 hprod] at h1
        simpa using h1

/-- Counterexample to C9 as stated: a second, textually identical add-to-cart
directive is removed from the text as well, because the replacement deletes
every occurrence of the matched tag. -/
theorem claim_C9_counterexample :
    (procesarAcciones svcVacio (fun _ => 0) (fun _ => 0)
        "x [AGREGAR_CARRITO:9|q|5] y [AGREGAR_CARRITO:9|q|5] z" convVacia =
      Except.ok ("x  y  z", [], [], convVacia)) ∧
    (pyIn "[AGREGAR_CARRITO:9|q|5]" "x  y  z" = false) := by
  exact ⟨rfl, by decide⟩

/-- Witness for C9 at a concrete legacy search. -/
theorem claim_C9_witness :
    outBuscarVacio.2.2.1.countP esAccionAgregar ≤ 1 ∧
    outBuscarVacio.2.2.1.countP esAccionBuscar ≤ 1 ∧
    outBuscarVacio.2.2.1.countP esAccionCheckoutTag ≤ 1 :=
  claim_C9_primera_ocurrencia svcVacio (fun _ => 0) (fun _ => 0)
    "hola [BUSCAR_PRODUCTO:rosas]" convVacia outBuscarVacio rfl
